import Mathlib

/-!
Shallow embedding of the vhotplug daemon (a USB/PCI hotplug manager routing
host devices to VMs) and proofs about its specification claims.

Conventions used throughout:
* Python `None` is modelled with `Option`; Python truthiness (`""`, `0`, `[]`
  and `None` are falsy) is modelled by explicit `*Truthy` helpers.
* Python functions that can raise are modelled with `Option`/`Except`.
* `int(s, 16)` is modelled by `parseHexNat?`, accepting plain hexadecimal
  digit strings (the only shapes that occur in the inputs of interest).
* Regular-expression matching (`re.match`) is kept abstract: functions that
  use it take the matcher as an explicit argument.
-/

namespace Vhotplug

/-- Python `str(x)` for an optional string: `None` renders as `"None"`
inside f-strings. -/
def optStr : Option String → String
  | none => "None"
  | some s => s

/-- Python truthiness of an optional string (`None` and `""` are falsy). -/
def strTruthy : Option String → Bool
  | none => false
  | some s => s ≠ ""

/-- Python truthiness of an optional integer (`None` and `0` are falsy). -/
def natTruthy : Option Nat → Bool
  | none => false
  | some n => n ≠ 0

/-- Python truthiness of an optional list (`None` and `[]` are falsy). -/
def listTruthy {α : Type} : Option (List α) → Bool
  | none => false
  | some l => !l.isEmpty

/-- ASCII lower-casing of one character. -/
def charLower (c : Char) : Char :=
  if 'A' ≤ c ∧ c ≤ 'Z' then Char.ofNat (c.toNat + 32) else c

/-- Case-insensitive string equality, modelling Python `str.casefold()`
comparison (ASCII data only in this code base). -/
def strCaseEq (a b : String) : Bool :=
  a.toList.map charLower == b.toList.map charLower

/-- Value of one hexadecimal digit. -/
def hexDigitVal? (c : Char) : Option Nat :=
  if '0' ≤ c ∧ c ≤ '9' then some (c.toNat - '0'.toNat)
  else if 'a' ≤ c ∧ c ≤ 'f' then some (c.toNat - 'a'.toNat + 10)
  else if 'A' ≤ c ∧ c ≤ 'F' then some (c.toNat - 'A'.toNat + 10)
  else none

/-- Parse a plain hexadecimal digit string, modelling Python `int(s, 16)`
(which raises `ValueError`, here `none`, on malformed input). -/
def parseHexNat? (s : String) : Option Nat :=
  if s.isEmpty then none
  else s.toList.foldl
    (fun acc c => do
      let a ← acc
      let d ← hexDigitVal? c
      pure (a * 16 + d))
    (some 0)

/-- Parse two hexadecimal characters as one byte value. -/
def parseHexByte? (a b : Char) : Option Nat := do
  let x ← hexDigitVal? a
  let y ← hexDigitVal? b
  pure (x * 16 + y)

/-- Python `s.strip(":")`: drop leading and trailing colons. -/
def stripColons (s : List Char) : List Char :=
  ((s.dropWhile (fun c => c = ':')).reverse.dropWhile (fun c => c = ':')).reverse

/-- Helper for `splitOnColon`: accumulates the current piece (reversed). -/
def splitOnColonAux : List Char → List Char → List (List Char)
  | [], acc => [acc.reverse]
  | c :: rest, acc =>
    if c = ':' then acc.reverse :: splitOnColonAux rest []
    else splitOnColonAux rest (c :: acc)

/-- Python `s.split(":")` on a character list. -/
def splitOnColon (s : List Char) : List (List Char) :=
  splitOnColonAux s []

/-- Python `a, b = s.split(":")`: succeeds only when the split has exactly
two parts (otherwise a `ValueError` is raised). -/
def splitPairColon (s : String) : Option (String × String) :=
  match splitOnColon s.toList with
  | [a, b] => some (String.mk a, String.mk b)
  | _ => none

/-- One parsed USB interface triple, source `{"class": …, "subclass": …,
"protocol": …}` in `USBInfo.get_interfaces`. -/
structure UsbInterface where
  ifaceClass : Nat
  ifaceSubclass : Nat
  ifaceProtocol : Nat
  deriving DecidableEq, Repr

/-- Body of the loop in `USBInfo.get_interfaces` (src/vhotplug/usb.py):
pieces shorter than six characters are skipped; a piece whose first six
characters are not hexadecimal raises `ValueError`, which the source
catches around the whole loop, so the triples accumulated so far are
returned. -/
def parseInterfacePieces : List (List Char) → List UsbInterface
  | [] => []
  | p :: rest =>
    match p with
    | c1 :: c2 :: c3 :: c4 :: c5 :: c6 :: _ =>
      match parseHexByte? c1 c2, parseHexByte? c3 c4, parseHexByte? c5 c6 with
      | some cl, some sc, some pr =>
        ⟨cl, sc, pr⟩ :: parseInterfacePieces rest
      | _, _, _ => []
    | _ => parseInterfacePieces rest

/-- `USBInfo.get_interfaces` of src/vhotplug/usb.py, lifted to the raw
interface string: strip outer colons, split on `":"`, parse each piece as a
`CCSSPP` hex triple.  The module-level `parse_usb_interfaces` imported by
src/vhotplug/config.py is absent from src/; it is this same parser applied
to the string (per its call sites and the spec's "Interface parser yields
list of `{class,subclass,protocol}`"). -/
def parse_usb_interfaces (interfaces : Option String) : List UsbInterface :=
  match interfaces with
  | none => []
  | some s =>
    if s = "" then []
    else parseInterfacePieces (splitOnColon (stripColons s.toList))

/-- USB device snapshot, `USBInfo` of src/vhotplug/usb.py. -/
structure USBInfo where
  device_node : Option String := none
  vid : Option String := none
  pid : Option String := none
  vendor_name : Option String := none
  product_name : Option String := none
  interfaces : Option String := none
  device_class : Option Nat := none
  device_subclass : Option Nat := none
  device_protocol : Option Nat := none
  busnum : Option Nat := none
  devnum : Option Nat := none
  serial : Option String := none
  ports : Option (List Nat) := none
  sys_name : Option String := none
  deriving DecidableEq, Repr

/-- `USBInfo.get_interfaces`. -/
def USBInfo.get_interfaces (u : USBInfo) : List UsbInterface :=
  parse_usb_interfaces u.interfaces

/-- `USBInfo.is_usb_hub`: some interface has class 0x09. -/
def USBInfo.is_usb_hub (u : USBInfo) : Bool :=
  u.get_interfaces.any (fun i => i.ifaceClass = 9)

/-- `USBInfo.persistent_id`: `usb-<vid>:<pid>:<serial>`. -/
def USBInfo.persistent_id (u : USBInfo) : String :=
  "usb-" ++ optStr u.vid ++ ":" ++ optStr u.pid ++ ":" ++ optStr u.serial

/-- `USBInfo.root_port`: first element of `ports` (empty list is falsy). -/
def USBInfo.root_port (u : USBInfo) : Option Nat :=
  match u.ports with
  | some (p :: _) => some p
  | _ => none

/-- PCI device snapshot, `PCIInfo` of src/vhotplug/pci.py. -/
structure PCIInfo where
  address : Option String := none
  driver : Option String := none
  vendor_id : Option Nat := none
  device_id : Option Nat := none
  vid : Option String := none
  did : Option String := none
  vendor_name : Option String := none
  device_name : Option String := none
  pci_class : Option Nat := none
  pci_subclass : Option Nat := none
  pci_prog_if : Option Nat := none
  pci_subsystem_vendor_id : Option String := none
  pci_subsystem_id : Option String := none
  deriving DecidableEq, Repr

/-- `PCIInfo.persistent_id`: `pci-<address>`. -/
def PCIInfo.persistent_id (p : PCIInfo) : String :=
  "pci-" ++ optStr p.address

/-- `PCIInfo.runtime_id`: `pci-<address>`. -/
def PCIInfo.runtime_id (p : PCIInfo) : String :=
  "pci-" ++ optStr p.address

/-- Relevant udev properties of a PCI kernel device, inputs of
`get_pci_info` (src/vhotplug/pci.py). -/
structure UdevPciDevice where
  sysName : String
  driver : Option String := none
  pciId : Option String := none
  vendorName : Option String := none
  modelName : Option String := none
  pciClassProp : Option String := none
  pciSubsysId : Option String := none
  deriving DecidableEq, Repr

/-- `get_pci_info` of src/vhotplug/pci.py.  `none` models the uncaught
exceptions the source raises on missing or malformed properties.  The class
fields are extracted from the 24-bit `PCI_CLASS` value exactly as in the
source: `(c >> 16) & 0xFF`, `(c >> 8) & 0xFF` and `c & 0xF`. -/
def get_pci_info (d : UdevPciDevice) : Option PCIInfo := do
  let pciId ← d.pciId
  let (vid, did) ← splitPairColon pciId
  let vendorId ← parseHexNat? vid
  let deviceId ← parseHexNat? did
  let classProp ← d.pciClassProp
  let classHex ← parseHexNat? classProp
  let subsysId ← d.pciSubsysId
  let (subsysVid, subsysDid) ← splitPairColon subsysId
  pure
    { address := some d.sysName
      driver := d.driver
      vendor_id := some vendorId
      device_id := some deviceId
      vid := some vid
      did := some did
      vendor_name := d.vendorName
      device_name := d.modelName
      pci_class := some ((classHex >>> 16) &&& 0xFF)
      pci_subclass := some ((classHex >>> 8) &&& 0xFF)
      pci_prog_if := some (classHex &&& 0xF)
      pci_subsystem_vendor_id := some subsysVid
      pci_subsystem_id := some subsysDid }

/-- Concrete xHCI-style PCI device: 24-bit class code `0x0C0330`
(class 0x0C serial bus, subclass 0x03 USB, programming interface 0x30). -/
def xhciPciDevice : UdevPciDevice :=
  { sysName := "0000:00:14.0"
    driver := some "xhci_hcd"
    pciId := some "8086:51ed"
    pciClassProp := some "0c0330"
    pciSubsysId := some "1028:0b10" }

/-- The `PCIInfo` value `get_pci_info` produces for `xhciPciDevice`. -/
def xhciPciInfo : PCIInfo :=
  { address := some "0000:00:14.0"
    driver := some "xhci_hcd"
    vendor_id := some 0x8086
    device_id := some 0x51ed
    vid := some "8086"
    did := some "51ed"
    pci_class := some 0x0C
    pci_subclass := some 0x03
    pci_prog_if := some 0x00
    pci_subsystem_vendor_id := some "1028"
    pci_subsystem_id := some "0b10" }

/-- C7: the USB interface parser maps the colon-separated string of hex
triples to `{class, subclass, protocol}` records — `":030101:030102:"`
yields exactly (3,1,1) and (3,1,2) — and `is_usb_hub` is true iff some
parsed interface has class 0x09, so `is_usb_hub ":090000:"` is true. -/
theorem C7_usb_interface_parsing :
    parse_usb_interfaces (some ":030101:030102:") =
      [⟨3, 1, 1⟩, ⟨3, 1, 2⟩] ∧
    USBInfo.is_usb_hub { interfaces := some ":090000:" } = true ∧
    ∀ u : USBInfo, u.is_usb_hub = true ↔
      ∃ i ∈ u.get_interfaces, i.ifaceClass = 9 := by
  refine ⟨by decide, by decide, ?_⟩
  intro u
  simp [USBInfo.is_usb_hub, List.any_eq_true]

/-- C6 counterexample: for the 24-bit class code 0x0C0330 (an xHCI USB
controller, programming interface 0x30), the source extracts
`pci_prog_if = 0` because it masks with `0xF`, not with `0xFF` as the
claim states (`0x0C0330 & 0xFF = 0x30 ≠ 0`). -/
theorem C6_prog_if_counterexample :
    parseHexNat? "0c0330" = some 0x0C0330 ∧
    (get_pci_info xhciPciDevice).map (fun i => i.pci_prog_if) =
      some (some 0x00) ∧
    0x0C0330 &&& 0xFF = 0x30 ∧ (0x00 : Nat) ≠ 0x30 := by
  refine ⟨by decide, by decide, by decide, by decide⟩

/-- C6 amended: for every PCI device whose 24-bit kernel class code is `c`,
the extracted fields satisfy `pci_class = (c >>> 16) &&& 0xFF`,
`pci_subclass = (c >>> 8) &&& 0xFF` and `pci_prog_if = c &&& 0xF` (the low
nibble only, not the full low byte). -/
theorem C6_pci_class_fields (d : UdevPciDevice) (cp : String) (c : Nat)
    (i : PCIInfo) (hcp : d.pciClassProp = some cp)
    (hc : parseHexNat? cp = some c) (hi : get_pci_info d = some i) :
    i.pci_class = some ((c >>> 16) &&& 0xFF) ∧
    i.pci_subclass = some ((c >>> 8) &&& 0xFF) ∧
    i.pci_prog_if = some (c &&& 0xF) := by
  simp only [get_pci_info, hcp, Option.bind_eq_bind, Option.some_bind,
    Option.bind_eq_some, hc, Option.some.injEq, Option.pure_def] at hi
  obtain ⟨pciId, hpid, ⟨v, dd⟩, hsplit, vi, hvi, di, hdi, sub, hsubid,
    ⟨sv, si⟩, hsub, hinfo⟩ := hi
  cases hinfo
  exact ⟨rfl, rfl, rfl⟩

/-- C6 witness: the amended extraction evaluated on the concrete xHCI
device. -/
theorem C6_pci_class_fields_witness :
    xhciPciInfo.pci_class = some ((0x0C0330 >>> 16) &&& 0xFF) ∧
    xhciPciInfo.pci_subclass = some ((0x0C0330 >>> 8) &&& 0xFF) ∧
    xhciPciInfo.pci_prog_if = some (0x0C0330 &&& 0xF) :=
  C6_pci_class_fields xhciPciDevice "0c0330" 0x0C0330 xhciPciInfo
    (by rfl) (by decide) (by decide)

/-! ## Policy engine (src/vhotplug/config.py) -/

/-- `Config._disabled(node)`: explicit `disable` wins, else explicit
`enable` negated, else the default (enabled). -/
def disabledOpt (disable enable : Option Bool) : Bool :=
  match disable with
  | some b => b
  | none =>
    match enable with
    | some b => !b
    | none => false

/-- `Config._hex_to_int`: `int(s, 16) if s else None`, exceptions giving
`None`. -/
def hexToInt? (s : Option String) : Option Nat :=
  match s with
  | none => none
  | some str => if str = "" then none else parseHexNat? str

/-- Matching of one optional string field pair, as in
`rule_vid and usb_info.vid and usb_info.vid.casefold() == rule_vid.casefold()`
(falsy rule or device values never match). -/
def strFieldMatch (ruleVal devVal : Option String) : Bool :=
  strTruthy ruleVal && strTruthy devVal &&
    strCaseEq (devVal.getD "") (ruleVal.getD "")

/-- Matching of one optional integer field pair, as in
`rule_bus and usb_info.busnum and usb_info.busnum == rule_bus`. -/
def natFieldMatch (ruleVal devVal : Option Nat) : Bool :=
  natTruthy ruleVal && natTruthy devVal && (devVal.getD 0 == ruleVal.getD 0)

/-- One USB allow/deny matcher of a `usbPassthrough` rule. -/
structure USBMatcher where
  disable : Option Bool := none
  enable : Option Bool := none
  vendorId : Option String := none
  productId : Option String := none
  vendorName : Option String := none
  productName : Option String := none
  bus : Option Nat := none
  port : Option Nat := none
  deviceClass : Option Nat := none
  deviceSubclass : Option Nat := none
  deviceProtocol : Option Nat := none
  interfaceClass : Option Nat := none
  interfaceSubclass : Option Nat := none
  interfaceProtocol : Option Nat := none
  deriving DecidableEq, Repr

/-- `Config._match_usb`.  `reMatch pattern str` abstracts
`re.match(pattern, str, re.IGNORECASE)` truthiness. -/
def match_usb (reMatch : String → String → Bool) (u : USBInfo)
    (m : USBMatcher) : Bool :=
  if disabledOpt m.disable m.enable then false
  else
    let vidPid := strFieldMatch m.vendorId u.vid && strFieldMatch m.productId u.pid
    let names :=
      (strTruthy m.vendorName && reMatch (m.vendorName.getD "") (u.vendor_name.getD "")) ||
      (strTruthy m.productName && reMatch (m.productName.getD "") (u.product_name.getD ""))
    let busPort := natFieldMatch m.bus u.busnum && natFieldMatch m.port u.root_port
    let deviceTriple :=
      natTruthy m.deviceClass && (m.deviceClass == u.device_class) &&
      (!natTruthy m.deviceSubclass || m.deviceSubclass == u.device_subclass) &&
      (!natTruthy m.deviceProtocol || m.deviceProtocol == u.device_protocol)
    let ifaceTriple :=
      (parse_usb_interfaces u.interfaces).any fun i =>
        natTruthy m.interfaceClass && (m.interfaceClass == some i.ifaceClass) &&
        (!natTruthy m.interfaceSubclass || m.interfaceSubclass == some i.ifaceSubclass) &&
        (!natTruthy m.interfaceProtocol || m.interfaceProtocol == some i.ifaceProtocol)
    vidPid || names || busPort || deviceTriple || ifaceTriple

/-- One PCI allow/deny matcher of a `pciPassthrough` rule. -/
structure PCIMatcher where
  disable : Option Bool := none
  enable : Option Bool := none
  address : Option String := none
  vendorId : Option String := none
  deviceId : Option String := none
  deviceClass : Option Nat := none
  deviceSubclass : Option Nat := none
  deviceProgIf : Option Nat := none
  deriving DecidableEq, Repr

/-- `Config._match_pci`. -/
def match_pci (p : PCIInfo) (m : PCIMatcher) : Bool :=
  if disabledOpt m.disable m.enable then false
  else
    let addr := strFieldMatch m.address p.address
    let ruleVid := hexToInt? m.vendorId
    let ruleDid := hexToInt? m.deviceId
    let vidDid :=
      natTruthy ruleVid && natTruthy ruleDid &&
      natTruthy p.vendor_id && natTruthy p.device_id &&
      (p.vendor_id == ruleVid) && (p.device_id == ruleDid)
    let classTriple :=
      natTruthy m.deviceClass && (m.deviceClass == p.pci_class) &&
      (!natTruthy m.deviceSubclass || m.deviceSubclass == p.pci_subclass) &&
      (!natTruthy m.deviceProgIf || m.deviceProgIf == p.pci_prog_if)
    addr || vidDid || classTriple

/-- A `usbPassthrough` rule. -/
structure USBRule where
  disable : Option Bool := none
  enable : Option Bool := none
  targetVm : Option String := none
  allowedVms : Option (List String) := none
  allow : List USBMatcher := []
  deny : List USBMatcher := []
  skipOnSuspend : Option Bool := none
  deriving DecidableEq, Repr

/-- A `pciPassthrough` rule. -/
structure PCIRule where
  disable : Option Bool := none
  enable : Option Bool := none
  targetVm : Option String := none
  allowedVms : Option (List String) := none
  allow : List PCIMatcher := []
  deny : List PCIMatcher := []
  skipOnSuspend : Option Bool := none
  pciIommuAddAll : Option Bool := none
  pciIommuSkipIfShared : Option Bool := none
  deriving DecidableEq, Repr

/-- Policy lookup result, `PassthroughInfo` of src/vhotplug/config.py. -/
structure PassthroughInfo where
  target_vm : Option String
  allowed_vms : Option (List String)
  skip_on_suspend : Bool := false
  pci_iommu_add_all : Bool := false
  pci_iommu_skip_if_shared : Bool := false
  order : Nat := 0
  deriving DecidableEq, Repr

/-- Rule evaluation: some allow matcher matches and no deny matcher does
(the allow and deny loops of `vm_for_usb_device`). -/
def usbRuleEval (reMatch : String → String → Bool) (u : USBInfo)
    (r : USBRule) : Bool :=
  r.allow.any (match_usb reMatch u) && !(r.deny.any (match_usb reMatch u))

/-- `Config.vm_for_usb_device`: first enabled rule whose evaluation is
true; a matching rule with neither a truthy `targetVm` nor a truthy
`allowedVms` is logged and skipped (`continue`). -/
def vm_for_usb_device (reMatch : String → String → Bool) (u : USBInfo) :
    List USBRule → Option PassthroughInfo
  | [] => none
  | r :: rest =>
    if disabledOpt r.disable r.enable then vm_for_usb_device reMatch u rest
    else if usbRuleEval reMatch u r then
      if strTruthy r.targetVm then
        some ⟨r.targetVm, r.allowedVms, r.skipOnSuspend.getD false, false, false, 0⟩
      else if listTruthy r.allowedVms then
        some ⟨r.targetVm, r.allowedVms, r.skipOnSuspend.getD false, false, false, 0⟩
      else vm_for_usb_device reMatch u rest
    else vm_for_usb_device reMatch u rest

/-- Rule evaluation for PCI rules. -/
def pciRuleEval (p : PCIInfo) (r : PCIRule) : Bool :=
  r.allow.any (match_pci p) && !(r.deny.any (match_pci p))

/-- Number of allow matchers the `vm_for_pci_device` allow loop examines
(the `order` counter increments once per examined matcher, stopping at the
first match). -/
def countScannedAllow (p : PCIMatcher → Bool) : List PCIMatcher → Nat
  | [] => 0
  | m :: rest => 1 + (if p m then 0 else countScannedAllow p rest)

/-- Loop of `Config.vm_for_pci_device`, carrying the running `order`
counter.  A matching rule without a truthy `targetVm` is logged and skipped
even when `allowedVms` is present (multiple VMs are only supported for
USB). -/
def vm_for_pci_device_aux (p : PCIInfo) (order : Nat) :
    List PCIRule → Option PassthroughInfo
  | [] => none
  | r :: rest =>
    if disabledOpt r.disable r.enable then vm_for_pci_device_aux p order rest
    else
      let order2 := order + countScannedAllow (match_pci p) r.allow
      if pciRuleEval p r then
        if strTruthy r.targetVm then
          some ⟨r.targetVm, some [], r.skipOnSuspend.getD false,
            r.pciIommuAddAll.getD false, r.pciIommuSkipIfShared.getD false,
            order2⟩
        else vm_for_pci_device_aux p order2 rest
      else vm_for_pci_device_aux p order2 rest

/-- `Config.vm_for_pci_device`. -/
def vm_for_pci_device (rules : List PCIRule) (p : PCIInfo) :
    Option PassthroughInfo :=
  vm_for_pci_device_aux p 0 rules

/-! ### Claim-side selectors for C2 (refinement targets, written from the
claim's words, to be compared with the source translations above) -/

/-- Claim-side: the first rule that is enabled, evaluates to true and
carries a usable VM field (for USB: `targetVm` or `allowedVms`). -/
def firstEligibleUsbRule (reMatch : String → String → Bool) (u : USBInfo) :
    List USBRule → Option USBRule
  | [] => none
  | r :: rest =>
    if !disabledOpt r.disable r.enable && usbRuleEval reMatch u r &&
        (strTruthy r.targetVm || listTruthy r.allowedVms) then
      some r
    else firstEligibleUsbRule reMatch u rest

/-- The `PassthroughInfo` a selected USB rule yields. -/
def usbRuleInfo (r : USBRule) : PassthroughInfo :=
  ⟨r.targetVm, r.allowedVms, r.skipOnSuspend.getD false, false, false, 0⟩

/-- Claim-side: the first PCI rule that is enabled, evaluates to true and
has a truthy `targetVm`. -/
def firstEligiblePciRule (p : PCIInfo) : List PCIRule → Option PCIRule
  | [] => none
  | r :: rest =>
    if !disabledOpt r.disable r.enable && pciRuleEval p r &&
        strTruthy r.targetVm then
      some r
    else firstEligiblePciRule p rest

/-- The payload fields (besides `order`) a selected PCI rule yields. -/
def pciRuleCore (r : PCIRule) : Option String × Bool × Bool × Bool :=
  (r.targetVm, r.skipOnSuspend.getD false, r.pciIommuAddAll.getD false,
    r.pciIommuSkipIfShared.getD false)

/-- The payload fields (besides `order`) of a `PassthroughInfo`. -/
def infoCore (i : PassthroughInfo) : Option String × Bool × Bool × Bool :=
  (i.target_vm, i.skip_on_suspend, i.pci_iommu_add_all,
    i.pci_iommu_skip_if_shared)

/-- The `order` counter never influences which PCI rule is selected nor its
payload fields. -/
theorem vmForPciAuxCore (p : PCIInfo) (rules : List PCIRule) :
    ∀ order, (vm_for_pci_device_aux p order rules).map infoCore =
      (firstEligiblePciRule p rules).map pciRuleCore := by
  induction rules with
  | nil => intro order; rfl
  | cons r rest ih =>
    intro order
    simp only [vm_for_pci_device_aux, firstEligiblePciRule]
    cases hd : disabledOpt r.disable r.enable with
    | true => simp [hd, ih]
    | false =>
      cases he : pciRuleEval p r with
      | false => simp [hd, he, ih]
      | true =>
        cases ht : strTruthy r.targetVm with
        | true => simp [hd, he, ht, infoCore, pciRuleCore]
        | false => simp [hd, he, ht, ih]

/-- C2 counterexample: an enabled PCI rule with `allowedVms` but no
`targetVm`, whose evaluation on the device is true (and which therefore is
not "missing both targetVm and allowedVms"), is nevertheless skipped by
`vm_for_pci_device`, so the lookup returns nothing instead of that rule's
result. -/
theorem C2_pci_allowed_vms_counterexample :
    vm_for_pci_device
        [{ allowedVms := some ["vm1"],
           allow := [{ address := some "0000:00:02.0" }] }]
        { address := some "0000:00:02.0" } = none ∧
    disabledOpt none none = false ∧
    pciRuleEval { address := some "0000:00:02.0" }
      { allowedVms := some ["vm1"],
        allow := [{ address := some "0000:00:02.0" }] } = true := by
  refine ⟨by decide, by decide, by decide⟩

/-- C2 amended: `vm_for_usb_device` returns the result of the first
enabled USB rule (in list order) whose evaluation is true — some allow
matcher matches and no deny matcher does, so an empty allow list never
matches — skipping enabled matching rules that have neither a truthy
`targetVm` nor a truthy `allowedVms`; `vm_for_pci_device` likewise returns
the target VM and flags of the first enabled matching rule, but skips any
rule without a truthy `targetVm`, even one with `allowedVms` (multiple VMs
are only supported for USB). -/
theorem C2_first_enabled_rule_wins :
    (∀ (reMatch : String → String → Bool) (u : USBInfo)
        (rules : List USBRule),
      vm_for_usb_device reMatch u rules =
        (firstEligibleUsbRule reMatch u rules).map usbRuleInfo) ∧
    (∀ (p : PCIInfo) (rules : List PCIRule),
      (vm_for_pci_device rules p).map infoCore =
        (firstEligiblePciRule p rules).map pciRuleCore) := by
  constructor
  · intro reMatch u rules
    induction rules with
    | nil => rfl
    | cons r rest ih =>
      simp only [vm_for_usb_device, firstEligibleUsbRule]
      cases hd : disabledOpt r.disable r.enable with
      | true => simp [hd, ih]
      | false =>
        cases he : usbRuleEval reMatch u r with
        | false => simp [hd, he, ih]
        | true =>
          cases ht : strTruthy r.targetVm with
          | true => simp [hd, he, ht, usbRuleInfo]
          | false =>
            cases ha : listTruthy r.allowedVms with
            | true => simp [hd, he, ht, ha, usbRuleInfo]
            | false => simp [hd, he, ht, ha, ih]
  · intro p rules
    exact vmForPciAuxCore p rules 0

/-! ## State store (src/vhotplug/devicestate.py) -/

/-- A device handled by the orchestrator: the `USBInfo | PCIInfo` union of
the source. -/
inductive DeviceInfo where
  | usb (u : USBInfo)
  | pci (p : PCIInfo)
  deriving DecidableEq, Repr

/-- Dispatch of `persistent_id` over the union. -/
def DeviceInfo.persistent_id : DeviceInfo → String
  | .usb u => u.persistent_id
  | .pci p => p.persistent_id

/-- The runtime-map key of a device: USB device node or PCI address. -/
def DeviceInfo.runtimeKey : DeviceInfo → Option String
  | .usb u => u.device_node
  | .pci p => p.address

/-- Python dict update `m[k] = v` on an association list. -/
def alUpd (k v : String) : List (String × String) → List (String × String)
  | [] => [(k, v)]
  | (a, b) :: rest => if a = k then (k, v) :: rest else (a, b) :: alUpd k v rest

/-- Python dict lookup `m.get(k)`. -/
def alGet (k : String) : List (String × String) → Option String
  | [] => none
  | (a, b) :: rest => if a = k then some b else alGet k rest

/-- Python dict deletion `del m[k]` (guarded by `k in m` in the source, so
deleting an absent key is a no-op here). -/
def alDel (k : String) (l : List (String × String)) : List (String × String) :=
  l.filter (fun kv => kv.1 ≠ k)

/-- `DeviceState` of src/vhotplug/devicestate.py.  `saves` counts the JSON
documents `_save` flushed to disk (the observable persistence writes). -/
structure DeviceState where
  usb_device_vm_map : List (String × String) := []
  pci_device_vm_map : List (String × String) := []
  selected_vms : List (String × String) := []
  disconnected_devices : List String := []
  persistent : Bool := false
  saves : Nat := 0
  deriving DecidableEq, Repr

/-- `DeviceState._save`: writes the persistent maps when persistence is
enabled. -/
def DeviceState.save (s : DeviceState) : DeviceState :=
  if s.persistent then { s with saves := s.saves + 1 } else s

/-- `DeviceState.set_vm_for_device`.  The source asserts that a PCI address
is never `None`, so the `none` branch is unreachable there. -/
def DeviceState.set_vm_for_device (s : DeviceState) (d : DeviceInfo)
    (vm : String) : DeviceState :=
  match d with
  | .usb u =>
    match u.device_node with
    | some n => { s with usb_device_vm_map := alUpd n vm s.usb_device_vm_map }
    | none => s
  | .pci p =>
    match p.address with
    | some a => { s with pci_device_vm_map := alUpd a vm s.pci_device_vm_map }
    | none => s

/-- `DeviceState.get_vm_for_device`. -/
def DeviceState.get_vm_for_device (s : DeviceState) (d : DeviceInfo) :
    Option String :=
  match d with
  | .usb u =>
    match u.device_node with
    | some n => alGet n s.usb_device_vm_map
    | none => none
  | .pci p =>
    match p.address with
    | some a => alGet a s.pci_device_vm_map
    | none => none

/-- `DeviceState.remove_vm_for_device`. -/
def DeviceState.remove_vm_for_device (s : DeviceState) (d : DeviceInfo) :
    DeviceState :=
  match d with
  | .usb u =>
    match u.device_node with
    | some n => { s with usb_device_vm_map := alDel n s.usb_device_vm_map }
    | none => s
  | .pci p =>
    match p.address with
    | some a => { s with pci_device_vm_map := alDel a s.pci_device_vm_map }
    | none => s

/-- `DeviceState.select_vm_for_device` (persists). -/
def DeviceState.select_vm_for_device (s : DeviceState) (d : DeviceInfo)
    (vm : String) : DeviceState :=
  DeviceState.save
    { s with selected_vms := alUpd d.persistent_id vm s.selected_vms }

/-- `DeviceState.get_selected_vm_for_device`. -/
def DeviceState.get_selected_vm_for_device (s : DeviceState)
    (d : DeviceInfo) : Option String :=
  alGet d.persistent_id s.selected_vms

/-- `DeviceState.set_disconnected` (persists; `set.add` then `_save`). -/
def DeviceState.set_disconnected (s : DeviceState) (d : DeviceInfo) :
    DeviceState :=
  let pid := d.persistent_id
  let l := if pid ∈ s.disconnected_devices then s.disconnected_devices
           else pid :: s.disconnected_devices
  DeviceState.save { s with disconnected_devices := l }

/-- `DeviceState.is_disconnected`. -/
def DeviceState.is_disconnected (s : DeviceState) (d : DeviceInfo) : Bool :=
  d.persistent_id ∈ s.disconnected_devices

/-- `DeviceState.clear_disconnected` (persists only when the entry was
present; returns whether it was). -/
def DeviceState.clear_disconnected (s : DeviceState) (d : DeviceInfo) :
    DeviceState × Bool :=
  let pid := d.persistent_id
  if pid ∈ s.disconnected_devices then
    (DeviceState.save
      { s with disconnected_devices :=
          s.disconnected_devices.filter (fun x => x ≠ pid) }, true)
  else (s, false)

/-- Lookup after updating a different key is unchanged. -/
theorem alGet_upd_ne (k k2 v : String) (l : List (String × String))
    (h : k ≠ k2) : alGet k (alUpd k2 v l) = alGet k l := by
  induction l with
  | nil => simp [alUpd, alGet, Ne.symm h]
  | cons kv rest ih =>
    obtain ⟨a, b⟩ := kv
    by_cases ha : a = k2
    · subst ha
      simp [alUpd, alGet, Ne.symm h]
    · simp only [alUpd, if_neg ha]
      by_cases hak : a = k
      · simp [alGet, hak]
      · simp [alGet, hak, ih]

/-- Lookup after deleting a different key is unchanged. -/
theorem alGet_del_ne (k k2 : String) (l : List (String × String))
    (h : k ≠ k2) : alGet k (alDel k2 l) = alGet k l := by
  induction l with
  | nil => simp [alDel, alGet]
  | cons kv rest ih =>
    obtain ⟨a, b⟩ := kv
    simp only [alDel, decide_not] at ih ⊢
    by_cases ha : a = k2
    · subst ha
      simp [alGet, List.filter_cons, Ne.symm h, ih]
    · by_cases hak : a = k
      · subst hak
        simp [alGet, List.filter_cons, ha, h]
      · simp [alGet, List.filter_cons, ha, hak, ih]

/-- C10: the runtime-map mutators have a frame property — for every device
and VM name, `set_vm_for_device` and `remove_vm_for_device` leave
`selected_vms`, `disconnected_devices` and the persistence-write count
unchanged, do not touch the runtime map of the other bus, and change the
runtime maps at no key other than the device's own. -/
theorem C10_runtime_map_mutators_frame (s : DeviceState) (d : DeviceInfo)
    (vm : String) :
    ((s.set_vm_for_device d vm).selected_vms = s.selected_vms ∧
     (s.set_vm_for_device d vm).disconnected_devices = s.disconnected_devices ∧
     (s.set_vm_for_device d vm).saves = s.saves) ∧
    ((s.remove_vm_for_device d).selected_vms = s.selected_vms ∧
     (s.remove_vm_for_device d).disconnected_devices = s.disconnected_devices ∧
     (s.remove_vm_for_device d).saves = s.saves) ∧
    (∀ k : String, some k ≠ d.runtimeKey →
      (alGet k (s.set_vm_for_device d vm).usb_device_vm_map =
        alGet k s.usb_device_vm_map ∧
       alGet k (s.set_vm_for_device d vm).pci_device_vm_map =
        alGet k s.pci_device_vm_map ∧
       alGet k (s.remove_vm_for_device d).usb_device_vm_map =
        alGet k s.usb_device_vm_map ∧
       alGet k (s.remove_vm_for_device d).pci_device_vm_map =
        alGet k s.pci_device_vm_map)) := by
  refine ⟨?_, ?_, ?_⟩
  · cases d with
    | usb u => cases hn : u.device_node <;>
        simp [DeviceState.set_vm_for_device, hn]
    | pci p => cases hn : p.address <;>
        simp [DeviceState.set_vm_for_device, hn]
  · cases d with
    | usb u => cases hn : u.device_node <;>
        simp [DeviceState.remove_vm_for_device, hn]
    | pci p => cases hn : p.address <;>
        simp [DeviceState.remove_vm_for_device, hn]
  · intro k hk
    cases d with
    | usb u =>
      cases hn : u.device_node with
      | none =>
        simp [DeviceState.set_vm_for_device,
          DeviceState.remove_vm_for_device, hn]
      | some n =>
        simp only [DeviceInfo.runtimeKey, hn] at hk
        have hkn : k ≠ n := fun h => hk (by rw [h])
        simp [DeviceState.set_vm_for_device,
          DeviceState.remove_vm_for_device, hn, alGet_upd_ne _ _ _ _ hkn,
          alGet_del_ne _ _ _ hkn]
    | pci p =>
      cases hn : p.address with
      | none =>
        simp [DeviceState.set_vm_for_device,
          DeviceState.remove_vm_for_device, hn]
      | some a =>
        simp only [DeviceInfo.runtimeKey, hn] at hk
        have hka : k ≠ a := fun h => hk (by rw [h])
        simp [DeviceState.set_vm_for_device,
          DeviceState.remove_vm_for_device, hn, alGet_upd_ne _ _ _ _ hka,
          alGet_del_ne _ _ _ hka]

/-- Concrete state for the C10 witness. -/
def c10State : DeviceState :=
  { usb_device_vm_map := [("/dev/bus/usb/003/002", "vm1")],
    selected_vms := [("usb-046d:c52b:abc", "vm2")],
    disconnected_devices := ["usb-face:0001:None"],
    persistent := true, saves := 3 }

/-- Concrete device for the C10 witness. -/
def c10Device : DeviceInfo := .usb { device_node := some "/dev/bus/usb/003/005" }

/-- C10 witness: the frame property evaluated on a concrete state, device
and unrelated key, the non-equality hypothesis discharged by computation. -/
theorem C10_runtime_map_mutators_frame_witness :
    (DeviceState.set_vm_for_device c10State c10Device "vm1").selected_vms =
      c10State.selected_vms ∧
    alGet "/dev/bus/usb/003/002"
        ((DeviceState.set_vm_for_device c10State c10Device "vm1").usb_device_vm_map) =
      alGet "/dev/bus/usb/003/002" c10State.usb_device_vm_map :=
  ⟨(C10_runtime_map_mutators_frame c10State c10Device "vm1").1.1,
   ((C10_runtime_map_mutators_frame c10State c10Device "vm1").2.2
      "/dev/bus/usb/003/002" (by decide)).1⟩

/-! ## VMs, configuration and the world state

The orchestrator flows of src/vhotplug/device.py run against udev, the
state store, the policy engine and the VMM control sockets.  `World`
bundles the embedded state store and policy together with oracles for the
external collaborators (udev device lists, sysfs IOMMU groups, boot-device
detection, VMM boot readiness) and observable logs of VMM commands and API
notifications.  VMM transport (QMP / crosvm subprocess) commands are
modelled as succeeding; their retry envelopes are timing behaviour with no
state effect. -/

/-- A VM entry of the configuration (`{name, type, socket}`). -/
structure VmConf where
  name : String := ""
  vmType : String := ""
  socket : String := ""
  deriving DecidableEq, Repr

/-- The policy-relevant part of the configuration document. -/
structure Config where
  usbPassthrough : List USBRule := []
  pciPassthrough : List PCIRule := []
  vms : List VmConf := []

/-- `Config.get_vm`: first configured VM with the given name. -/
def Config.get_vm (c : Config) (vmName : String) : Option VmConf :=
  c.vms.find? (fun v => v.name == vmName)

/-- Notifications pushed to subscribed API clients (the identifying parts
of their payloads). -/
inductive Notif where
  | usbSelectVm (node : Option String) (allowedVms : Option (List String))
  | usbAttached (node : Option String) (vm : String)
  | usbDetached (node : Option String) (vm : String)
  | pciAttached (addr : Option String) (vm : String)
  | pciDetached (addr : Option String) (vm : String)
  deriving DecidableEq, Repr

/-- State-changing commands issued to a VMM control socket. -/
inductive VmmCmd where
  | deviceAddUsb (socket qemuid : String) (hostbus hostaddr : Option Nat)
  | deviceAddPci (socket : String) (host : Option String) (qemuid : String)
  | deviceDel (socket qemuid : String)
  | stop (socket : String)
  | resume (socket : String)
  | crosvmAttach (socket node : String)
  | crosvmDetach (socket vid pid : String)
  deriving DecidableEq, Repr

/-- Association-list update with list values (same shape as `alUpd`). -/
def alUpdL {α : Type} (k : String) (v : α) :
    List (String × α) → List (String × α)
  | [] => [(k, v)]
  | (a, b) :: rest => if a = k then (k, v) :: rest else (a, b) :: alUpdL k v rest

/-- Association-list lookup with list values. -/
def alGetL {α : Type} (k : String) : List (String × α) → Option α
  | [] => none
  | (a, b) :: rest => if a = k then some b else alGetL k rest

/-- The world the orchestrator acts on. -/
structure World where
  config : Config
  /-- `re.match` oracle used by the policy matchers. -/
  reMatch : String → String → Bool
  dev_state : DeviceState
  /-- Device nodes of USB drives with a partition mounted at `/boot`
  (oracle for `USBInfo.is_boot_device`). -/
  bootNodes : List String := []
  /-- `get_iommu_group_devices` oracle (sysfs). -/
  iommuGroups : String → List String
  /-- udev snapshots of present USB devices (`usb_device` type). -/
  usbHost : List USBInfo := []
  /-- udev snapshots of present PCI devices. -/
  pciHost : List PCIInfo := []
  /-- Sockets whose VM passed the boot-readiness gate
  (`wait_for_unix_socket`). -/
  bootedSockets : List String := []
  /-- Per QEMU socket: the QEMU IDs `info usb` reports. -/
  guestUsb : List (String × List String) := []
  /-- Per QEMU socket: `(vendor, device, qdev_id)` triples the `query-pci`
  walker would find (tree flattened). -/
  guestPci : List (String × List (Nat × Nat × String)) := []
  /-- Per crosvm socket: `(vid, pid)` pairs `usb list` reports. -/
  crosvmDevs : List (String × List (String × String)) := []
  /-- Whether the API server is running (`app_context.api_server`). -/
  apiServer : Bool := true
  /-- Notifications sent so far. -/
  notifs : List Notif := []
  /-- VMM commands issued so far. -/
  cmds : List VmmCmd := []
  /-- Addresses passed through `setup_vfio` so far. -/
  vfioSetups : List String := []

/-- Append a notification if the API server is running (each
`notify_*` call in the source is guarded by `if app_context.api_server`). -/
def pushNotif (w : World) (n : Notif) : World :=
  if w.apiServer then { w with notifs := w.notifs ++ [n] } else w

/-- Dispatch of `Config.vm_for_device` over the device union. -/
def Config.vm_for_device (c : Config) (reMatch : String → String → Bool) :
    DeviceInfo → Option PassthroughInfo
  | .usb u => vm_for_usb_device reMatch u c.usbPassthrough
  | .pci p => vm_for_pci_device c.pciPassthrough p

/-- `USBInfo.is_boot_device` via the partition/mountpoint oracle; PCI
devices are never boot devices (`PCIInfo.is_boot_device` returns False). -/
def isBootDevice (w : World) : DeviceInfo → Bool
  | .usb u =>
    match u.device_node with
    | some n => w.bootNodes.contains n
    | none => false
  | .pci _ => false

/-- `QEMULink._qemu_id_usb`: `usb<busnum><devnum>`. -/
def qemuIdUsb (u : USBInfo) : String :=
  "usb" ++ (match u.busnum with | none => "None" | some n => toString n)
    ++ (match u.devnum with | none => "None" | some n => toString n)

/-- `QEMULink.add_usb_device`: boot gate, duplicate-ID check against
`info usb`, then `device_add usb-host`. -/
def qemu_add_usb_device (w : World) (socket : String) (u : USBInfo) : World :=
  if w.bootedSockets.contains socket then
    let qemuid := qemuIdUsb u
    let guest := (alGetL socket w.guestUsb).getD []
    if guest.contains qemuid then w
    else
      { w with
        guestUsb := alUpdL socket (qemuid :: guest) w.guestUsb
        cmds := w.cmds ++ [.deviceAddUsb socket qemuid u.busnum u.devnum] }
  else w

/-- `QEMULink.remove_usb_device`: `device_del` by QEMU ID; QMP reports an
error for an absent ID, which `_execute` raises as `RuntimeError`. -/
def qemu_remove_usb_device (w : World) (socket : String) (u : USBInfo) :
    World × Option String :=
  let qemuid := qemuIdUsb u
  let guest := (alGetL socket w.guestUsb).getD []
  if guest.contains qemuid then
    ({ w with
       guestUsb := alUpdL socket (guest.erase qemuid) w.guestUsb
       cmds := w.cmds ++ [.deviceDel socket qemuid] }, none)
  else (w, some ("Device '" ++ qemuid ++ "' not found"))

/-- `QEMULink._find_pci_device`: first guest PCI device whose vendor and
device ids equal the host device's (both truthy). -/
def qemu_find_pci_device (w : World) (socket : String) (p : PCIInfo) :
    Option String :=
  ((alGetL socket w.guestPci).getD []).findSome?
    (fun t =>
      if natTruthy p.vendor_id && natTruthy (some t.1) &&
          natTruthy p.device_id && natTruthy (some t.2.1) &&
          (p.vendor_id == some t.1) && (p.device_id == some t.2.1) then
        some t.2.2
      else none)

/-- `QEMULink.add_pci_device`: boot gate, duplicate check via `query-pci`,
then `device_add vfio-pci` on an empty bridge (bridge choice abstracted;
the command is modelled as succeeding). -/
def qemu_add_pci_device (w : World) (socket : String) (p : PCIInfo) : World :=
  if w.bootedSockets.contains socket then
    match qemu_find_pci_device w socket p with
    | some _ => w
    | none =>
      let qemuid := p.runtime_id
      let guest := (alGetL socket w.guestPci).getD []
      { w with
        guestPci :=
          alUpdL socket
            ((p.vendor_id.getD 0, p.device_id.getD 0, qemuid) :: guest)
            w.guestPci
        cmds := w.cmds ++ [.deviceAddPci socket p.address qemuid] }
  else w

/-- `QEMULink.remove_pci_device_by_vid_did`: look the device up by
vendor/device id; absent or empty qdev ids are logged and ignored,
otherwise `device_del`. -/
def qemu_remove_pci_device_by_vid_did (w : World) (socket : String)
    (p : PCIInfo) : World :=
  match qemu_find_pci_device w socket p with
  | none => w
  | some qemuid =>
    if qemuid = "" then w
    else
      let guest := (alGetL socket w.guestPci).getD []
      { w with
        guestPci :=
          alUpdL socket (guest.filter (fun t => t.2.2 ≠ qemuid)) w.guestPci
        cmds := w.cmds ++ [.deviceDel socket qemuid] }

/-- `CrosvmLink.add_usb_device`: duplicate check by vid:pid against
`usb list`, then `crosvm usb attach` (retries and the `no_available_port`
workaround are modelled as an eventually successful attach). -/
def crosvm_add_usb_device (w : World) (socket : String) (u : USBInfo) : World :=
  let devs := (alGetL socket w.crosvmDevs).getD []
  if devs.any (fun e => u.vid == some e.1 && u.pid == some e.2) then w
  else
    { w with
      crosvmDevs := alUpdL socket ((optStr u.vid, optStr u.pid) :: devs) w.crosvmDevs
      cmds := w.cmds ++ [.crosvmAttach socket (optStr u.device_node)] }

/-- `CrosvmLink.remove_usb_device`: detach every listed device whose
vid:pid matches. -/
def crosvm_remove_usb_device (w : World) (socket : String) (u : USBInfo) : World :=
  let devs := (alGetL socket w.crosvmDevs).getD []
  let hits := devs.filter (fun e => u.vid == some e.1 && u.pid == some e.2)
  { w with
    crosvmDevs :=
      alUpdL socket
        (devs.filter (fun e => !(u.vid == some e.1 && u.pid == some e.2)))
        w.crosvmDevs
    cmds := w.cmds ++ hits.map (fun e => .crosvmDetach socket e.1 e.2) }

/-- `vmm_add_device` (src/vhotplug/vmm.py): dispatch by VM type and device
kind. -/
def vmm_add_device (w : World) (vm : VmConf) (d : DeviceInfo) :
    World × Option String :=
  if vm.socket = "" then (w, some "No socket path defined")
  else if vm.vmType = "qemu" then
    match d with
    | .usb u => (qemu_add_usb_device w vm.socket u, none)
    | .pci p => (qemu_add_pci_device w vm.socket p, none)
  else if vm.vmType = "crosvm" then
    match d with
    | .usb u => (crosvm_add_usb_device w vm.socket u, none)
    | .pci _ => (w, some "Not implemented")
  else (w, some ("Unknown VM type: " ++ vm.vmType))

/-- `vmm_remove_device`. -/
def vmm_remove_device (w : World) (vm : VmConf) (d : DeviceInfo) :
    World × Option String :=
  if vm.socket = "" then (w, some "No socket path defined")
  else if vm.vmType = "qemu" then
    match d with
    | .usb u => qemu_remove_usb_device w vm.socket u
    | .pci p => (qemu_remove_pci_device_by_vid_did w vm.socket p, none)
  else if vm.vmType = "crosvm" then
    match d with
    | .usb u => (crosvm_remove_usb_device w vm.socket u, none)
    | .pci _ => (w, some "Not implemented")
  else (w, some ("Unsupported vm type: " ++ vm.vmType))

/-- `vmm_pause`: `stop` for a booted QEMU VM (the boot gate downgrades an
unbooted VM to a warning); other VM types are a no-op. -/
def vmm_pause (w : World) (vm : VmConf) : World × Option String :=
  if vm.socket = "" then (w, some "No socket path defined")
  else if vm.vmType = "qemu" then
    (if w.bootedSockets.contains vm.socket then
      { w with cmds := w.cmds ++ [.stop vm.socket] }
     else w, none)
  else (w, none)

/-- `vmm_resume`: `cont` for a booted QEMU VM; other VM types no-op. -/
def vmm_resume (w : World) (vm : VmConf) : World × Option String :=
  if vm.socket = "" then (w, some "No socket path defined")
  else if vm.vmType = "qemu" then
    (if w.bootedSockets.contains vm.socket then
      { w with cmds := w.cmds ++ [.resume vm.socket] }
     else w, none)
  else (w, none)

/-- `pci_info_by_address`: scan the udev PCI list. -/
def pci_info_by_address (w : World) (address : String) : Option PCIInfo :=
  w.pciHost.find? (fun p => p.address == some address)

/-- `usb_device_by_node`: look a USB device up by device node. -/
def usb_device_by_node (w : World) (node : String) : Option USBInfo :=
  w.usbHost.find? (fun u => u.device_node == some node)

/-- `setup_vfio` as seen by the orchestrator: records that the VFIO rebind
ran for the device's IOMMU group (its sysfs write mechanics, including the
swallowing of `OSError`, are modelled in the dedicated section below; it
never raises to the orchestrator). -/
def setup_vfio_world (w : World) (p : PCIInfo) : World :=
  { w with vfioSetups := w.vfioSetups ++ [optStr p.address] }

/-! ## Orchestrator flows (src/vhotplug/device.py)

Flow functions return `World × Option String`: the second component is the
`RuntimeError` message when the Python code raises, and the first is the
world including any mutations performed before the raise. -/

/-- `USBInfo.friendly_name` (may be `None` when vid or pid are missing). -/
def USBInfo.friendly_name (u : USBInfo) : Option String :=
  if strTruthy u.vid && strTruthy u.pid then
    some (optStr u.vid ++ ":" ++ optStr u.pid ++ " (" ++ optStr u.vendor_name
      ++ " " ++ optStr u.product_name ++ ")")
  else u.device_node

/-- `PCIInfo.friendly_name`. -/
def PCIInfo.friendly_name (p : PCIInfo) : String :=
  optStr p.vid ++ ":" ++ optStr p.did ++ " (" ++ optStr p.vendor_name ++ " "
    ++ optStr p.device_name ++ ")"

/-- The friendly name as rendered inside an f-string error message. -/
def DeviceInfo.friendlyStr : DeviceInfo → String
  | .usb u => optStr u.friendly_name
  | .pci p => p.friendly_name

/-- The `RuntimeError` message `remove_device` raises for an unattached
device. -/
def notAttachedMsg (d : DeviceInfo) : String :=
  "Device " ++ d.friendlyStr ++ " is not attached to any VM"

/-- `APIServer.notify_dev_attached` payload. -/
def notifAttached : DeviceInfo → String → Notif
  | .usb u, vm => .usbAttached u.device_node vm
  | .pci p, vm => .pciAttached p.address vm

/-- `APIServer.notify_dev_detached` payload. -/
def notifDetached : DeviceInfo → String → Notif
  | .usb u, vm => .usbDetached u.device_node vm
  | .pci p, vm => .pciDetached p.address vm

/-- `find_vm_for_device`: rule lookup, then boot-device refusal, then the
permanently-disconnected check. -/
def find_vm_for_device (w : World) (d : DeviceInfo)
    (check_disconnected : Bool := true) : Option PassthroughInfo :=
  match w.config.vm_for_device w.reMatch d with
  | none => none
  | some res =>
    if isBootDevice w d then none
    else if check_disconnected && w.dev_state.is_disconnected d then none
    else some res

/-- `_autoselect_vm`: the saved selection when truthy and allowed, else the
head of the allowed list (`none` models the `IndexError` on an empty
list). -/
def autoselect_vm (w : World) (d : DeviceInfo) (avms : List String) :
    Option String :=
  match w.dev_state.get_selected_vm_for_device d with
  | some c => if c != "" && avms.contains c then some c else avms.head?
  | none => avms.head?

/-- `_remove_device_from_vm`: VMM removal, then state cleanup, then the
detached notification. -/
def remove_device_from_vm (w : World) (d : DeviceInfo) (vm : VmConf) :
    World × Option String :=
  match vmm_remove_device w vm d with
  | (w1, some e) => (w1, some e)
  | (w1, none) =>
    let w2 := { w1 with dev_state := w1.dev_state.remove_vm_for_device d }
    (pushNotif w2 (notifDetached d vm.name), none)

/-- Loop of `_remove_iommu_group`: members attached elsewhere are skipped
with a warning; the VM is paused before the first removal; an error aborts
the loop.  Returns the paused flag for the `finally` clause. -/
def remove_iommu_loop (vm : VmConf) :
    List String → World → Bool → World × Bool × Option String
  | [], w, paused => (w, paused, none)
  | addr :: rest, w, paused =>
    match pci_info_by_address w addr with
    | none => remove_iommu_loop vm rest w paused
    | some pinfo =>
      let cur := w.dev_state.get_vm_for_device (.pci pinfo)
      if strTruthy cur && !(cur == some vm.name) then
        remove_iommu_loop vm rest w paused
      else if paused then
        match remove_device_from_vm w (.pci pinfo) vm with
        | (w1, some e) => (w1, true, some e)
        | (w1, none) => remove_iommu_loop vm rest w1 true
      else
        match vmm_pause w vm with
        | (w1, some e) => (w1, false, some e)
        | (w1, none) =>
          match remove_device_from_vm w1 (.pci pinfo) vm with
          | (w2, some e) => (w2, true, some e)
          | (w2, none) => remove_iommu_loop vm rest w2 true

/-- `_remove_iommu_group` with its `try/finally` resume. -/
def remove_iommu_group (w : World) (devices : List String) (vm : VmConf) :
    World × Option String :=
  match remove_iommu_loop vm devices w false with
  | (w1, paused, err) =>
    if paused then
      match vmm_resume w1 vm with
      | (w2, some e2) => (w2, some e2)
      | (w2, none) => (w2, err)
    else (w1, err)

/-- `remove_device`: the not-attached check comes first, before any state
or VMM interaction. -/
def remove_device (w : World) (d : DeviceInfo) : World × Option String :=
  let cur := w.dev_state.get_vm_for_device d
  if strTruthy cur then
    let cur_name := cur.getD ""
    match w.config.get_vm cur_name with
    | none =>
      (w, some ("VM " ++ cur_name ++ " not found in the configuration file"))
    | some vm =>
      match d with
      | .pci p =>
        let devices := w.iommuGroups (optStr p.address)
        if devices.length > 1 then
          match w.config.vm_for_device w.reMatch d with
          | none =>
            (w, some ("Device " ++ d.friendlyStr ++ " doesn't match any rules"))
          | some res =>
            if res.pci_iommu_add_all then remove_iommu_group w devices vm
            else remove_device_from_vm w d vm
        else remove_device_from_vm w d vm
      | .usb _ => remove_device_from_vm w d vm
  else (w, some (notAttachedMsg d))

/-- `_attach_device_to_vm`: best-effort removal from a different VM
(errors are caught with a warning), VFIO setup for PCI, VMM attach, state
update, attached notification. -/
def attach_device_to_vm (w : World) (d : DeviceInfo) (vm : VmConf) :
    World × Option String :=
  let cur := w.dev_state.get_vm_for_device d
  let w0 := if strTruthy cur && !(cur == some vm.name) then (remove_device w d).1
            else w
  let w1 := match d with
            | .pci p => setup_vfio_world w0 p
            | .usb _ => w0
  match vmm_add_device w1 vm d with
  | (w2, some e) => (w2, some e)
  | (w2, none) =>
    let st := (DeviceState.clear_disconnected
      (w2.dev_state.set_vm_for_device d vm.name) d).1
    (pushNotif { w2 with dev_state := st } (notifAttached d vm.name), none)

/-- Loop of `_attach_iommu_group`: members already attached to this VM are
skipped; attachment to a different VM only warns; the VM is paused before
the first attach. -/
def attach_iommu_loop (vm : VmConf) :
    List String → World → Bool → World × Bool × Option String
  | [], w, paused => (w, paused, none)
  | addr :: rest, w, paused =>
    match pci_info_by_address w addr with
    | none => attach_iommu_loop vm rest w paused
    | some pinfo =>
      let cur := w.dev_state.get_vm_for_device (.pci pinfo)
      if strTruthy cur && (cur == some vm.name) then
        attach_iommu_loop vm rest w paused
      else if paused then
        match attach_device_to_vm w (.pci pinfo) vm with
        | (w1, some e) => (w1, true, some e)
        | (w1, none) => attach_iommu_loop vm rest w1 true
      else
        match vmm_pause w vm with
        | (w1, some e) => (w1, false, some e)
        | (w1, none) =>
          match attach_device_to_vm w1 (.pci pinfo) vm with
          | (w2, some e) => (w2, true, some e)
          | (w2, none) => attach_iommu_loop vm rest w2 true

/-- `_attach_iommu_group` with its `try/finally` resume. -/
def attach_iommu_group (w : World) (devices : List String) (vm : VmConf) :
    World × Option String :=
  match attach_iommu_loop vm devices w false with
  | (w1, paused, err) =>
    if paused then
      match vmm_resume w1 vm with
      | (w2, some e2) => (w2, some e2)
      | (w2, none) => (w2, err)
    else (w1, err)

/-- Tail of `attach_device` once the target VM name is fixed: scope
filter, VM lookup, IOMMU handling for PCI, then the attach. -/
def attach_with_target (w : World) (pinfo : PassthroughInfo)
    (d : DeviceInfo) (tvm : String) (scope : Option (List String)) :
    World × Option String :=
  if listTruthy scope && !((scope.getD []).contains tvm) then (w, none)
  else
    match w.config.get_vm tvm with
    | none => (w, some ("VM " ++ tvm ++ " is not found in the config file"))
    | some vm =>
      match d with
      | .pci p =>
        let devices := w.iommuGroups (optStr p.address)
        if devices.length > 1 then
          if pinfo.pci_iommu_skip_if_shared then (w, none)
          else if pinfo.pci_iommu_add_all then attach_iommu_group w devices vm
          else attach_device_to_vm w d vm
        else attach_device_to_vm w d vm
      | .usb _ => attach_device_to_vm w d vm

/-- `attach_device` without a target VM and not asking: the
`assert allowed_vms is not None` and the `allowed_vms[0]` indexing of
`_autoselect_vm` surface as errors. -/
def attach_autoselect (w : World) (pinfo : PassthroughInfo) (d : DeviceInfo)
    (scope : Option (List String)) : World × Option String :=
  match pinfo.allowed_vms with
  | none => (w, some "allowed_vms must be set when target_vm is None")
  | some avms =>
    match autoselect_vm w d avms with
    | none => (w, some "list index out of range")
    | some tvm => attach_with_target w pinfo d tvm scope

/-- `attach_device`: when the rule has no truthy `targetVm` and the event
carries `ask=true`, a USB device only triggers the `usb_select_vm`
notification and the function returns; otherwise the VM is auto-selected
from the saved state or the allowed list. -/
def attach_device (w : World) (pinfo : PassthroughInfo) (d : DeviceInfo)
    (ask : Bool) (scope : Option (List String)) : World × Option String :=
  if strTruthy pinfo.target_vm then
    attach_with_target w pinfo d (pinfo.target_vm.getD "") scope
  else
    match d with
    | .usb u =>
      if ask then
        (pushNotif w (.usbSelectVm u.device_node pinfo.allowed_vms), none)
      else attach_autoselect w pinfo d scope
    | .pci _ => attach_autoselect w pinfo d scope

/-- `_remove_existing_device`: detach, then mark permanently disconnected
when requested (only after a successful removal). -/
def remove_existing_device (w : World) (d : DeviceInfo)
    (permanent : Bool) : World × Option String :=
  match remove_device w d with
  | (w1, some e) => (w1, some e)
  | (w1, none) =>
    (if permanent then { w1 with dev_state := w1.dev_state.set_disconnected d }
     else w1, none)

/-- `remove_existing_usb_device`. -/
def remove_existing_usb_device (w : World) (node : String)
    (permanent : Bool) : World × Option String :=
  match usb_device_by_node w node with
  | none => (w, some ("USB device " ++ node ++ " not found in the system"))
  | some u => remove_existing_device w (.usb u) permanent

/-- Outcome field of an API response. -/
inductive ApiResult where
  | ok
  | failed (error : String)
  deriving DecidableEq, Repr

/-- `APIServer.handle_message` for a `usb_detach` request identified by
device node (the handler awaits the orchestrator call and converts a
raised `RuntimeError` into `{"result": "failed", "error": str(e)}`). -/
def handle_usb_detach (w : World) (node : String) : World × ApiResult :=
  match remove_existing_usb_device w node true with
  | (w1, some e) => (w1, .failed e)
  | (w1, none) => (w1, .ok)

/-- One entry of the `usb_list` API response (the fields the claims are
about). -/
structure UsbListEntry where
  info : USBInfo
  allowed_vms : Option (List String)
  vm : Option String
  deriving DecidableEq, Repr

/-- Loop of `get_usb_device_list`: hubs and boot devices are skipped, then
the rule lookup and the disconnected filter decide the entry. -/
def usbListGo (w : World) (disconnected : Bool) :
    List USBInfo → List UsbListEntry
  | [] => []
  | u :: rest =>
    let tail := usbListGo w disconnected rest
    if u.is_usb_hub then tail
    else if isBootDevice w (.usb u) then tail
    else
      match vm_for_usb_device w.reMatch u w.config.usbPassthrough with
      | none => tail
      | some res =>
        let allowed := if strTruthy res.target_vm then
            some [res.target_vm.getD ""]
          else res.allowed_vms
        if w.dev_state.is_disconnected (.usb u) then ⟨u, allowed, none⟩ :: tail
        else if disconnected then tail
        else ⟨u, allowed, w.dev_state.get_vm_for_device (.usb u)⟩ :: tail

/-- `get_usb_device_list`: all matching USB devices as reported by the
`usb_list` API. -/
def get_usb_device_list (w : World) (disconnected : Bool) :
    List UsbListEntry :=
  usbListGo w disconnected w.usbHost

/-! ## Concrete worlds for counterexamples and witnesses -/

/-- A webcam-like USB device with a saved VM selection. -/
def uC1 : USBInfo :=
  { device_node := some "/dev/bus/usb/001/007", vid := some "04f2",
    pid := some "b751", serial := some "SER1", busnum := some 1,
    devnum := some 7 }

/-- Policy result with an allowed-VM list and no target VM. -/
def pinfoC1 : PassthroughInfo :=
  { target_vm := none, allowed_vms := some ["vm1", "vm2"] }

/-- World with two booted QEMU VMs and a saved selection of `vm2` for
`uC1`. -/
def wC1 : World :=
  { config :=
      { vms := [{ name := "vm1", vmType := "qemu", socket := "/run/vm1.sock" },
                { name := "vm2", vmType := "qemu", socket := "/run/vm2.sock" }] }
    reMatch := fun _ _ => false
    dev_state := { selected_vms := [("usb-04f2:b751:SER1", "vm2")],
                   persistent := true }
    iommuGroups := fun _ => []
    bootedSockets := ["/run/vm1.sock", "/run/vm2.sock"]
    apiServer := true }

/-- C1 counterexample: with `ask=true`, a saved selection (`vm2`) present
and no target VM, `attach_device` emits `usb_select_vm` and attaches
nothing — contradicting the claim that the device is attached to the saved
VM and that the notification is emitted only when no selection exists. -/
theorem C1_saved_selection_counterexample :
    (attach_device wC1 pinfoC1 (.usb uC1) true none).2 = none ∧
    (attach_device wC1 pinfoC1 (.usb uC1) true none).1.dev_state.get_vm_for_device
      (.usb uC1) = none ∧
    (attach_device wC1 pinfoC1 (.usb uC1) true none).1.cmds = [] ∧
    (attach_device wC1 pinfoC1 (.usb uC1) true none).1.notifs =
      [.usbSelectVm (some "/dev/bus/usb/001/007") (some ["vm1", "vm2"])] ∧
    wC1.dev_state.get_selected_vm_for_device (.usb uC1) = some "vm2" := by
  refine ⟨by rfl, by rfl, by rfl, by rfl, by rfl⟩

/-- C1 amended: a hotplug attach event with `ask=true` and no truthy
`targetVm` always emits `usb_select_vm` (when the API server runs) and
returns without attaching, whether or not a selection is saved; the saved
selection is honoured by the `ask=false` flows through `_autoselect_vm`,
which picks the saved VM whenever it is truthy and allowed. -/
theorem C1_ask_true_always_asks (w : World) (pinfo : PassthroughInfo)
    (u : USBInfo) (scope : Option (List String))
    (h : strTruthy pinfo.target_vm = false) :
    attach_device w pinfo (.usb u) true scope =
      (pushNotif w (.usbSelectVm u.device_node pinfo.allowed_vms), none) ∧
    ∀ (d : DeviceInfo) (avms : List String) (c : String),
      w.dev_state.get_selected_vm_for_device d = some c → c ≠ "" →
      avms.contains c = true → autoselect_vm w d avms = some c := by
  constructor
  · unfold attach_device
    rw [h]
    simp
  · intro d avms c hc hne hmem
    unfold autoselect_vm
    have h1 : (c != "") = true := by simpa using hne
    rw [hc]
    show (if (c != "" && avms.contains c) = true then some c else avms.head?)
      = some c
    rw [h1, hmem]
    simp

/-- C1 witness: the amended behaviour evaluated at the concrete world with
the saved selection. -/
theorem C1_ask_true_always_asks_witness :
    attach_device wC1 pinfoC1 (.usb uC1) true none =
      (pushNotif wC1 (.usbSelectVm (some "/dev/bus/usb/001/007")
        (some ["vm1", "vm2"])), none) ∧
    autoselect_vm wC1 (.usb uC1) ["vm1", "vm2"] = some "vm2" :=
  ⟨(C1_ask_true_always_asks wC1 pinfoC1 uC1 none (by decide)).1,
   (C1_ask_true_always_asks wC1 pinfoC1 uC1 none (by decide)).2
     (.usb uC1) ["vm1", "vm2"] "vm2" (by decide) (by decide) (by decide)⟩

/-- A USB flash drive whose partition is mounted at `/boot`. -/
def uC3 : USBInfo :=
  { device_node := some "/dev/bus/usb/001/002", vid := some "0781",
    pid := some "5567", serial := some "4C5300", busnum := some 1,
    devnum := some 2, interfaces := some ":080650:" }

/-- World where `uC3` is present, matches a rule and is a boot device. -/
def wC3 : World :=
  { config :=
      { usbPassthrough :=
          [{ targetVm := some "vm1",
             allow := [{ vendorId := some "0781", productId := some "5567" }] }]
        vms := [{ name := "vm1", vmType := "qemu", socket := "/run/vm1.sock" }] }
    reMatch := fun _ _ => false
    dev_state := {}
    bootNodes := ["/dev/bus/usb/001/002"]
    iommuGroups := fun _ => []
    usbHost := [uC3] }

/-- C3 counterexample: the boot device matches a rule and no attach is
performed, but `get_usb_device_list` skips boot devices entirely, so the
`usb_list` response is empty instead of reporting the device with
`allowed_vms` populated and `vm = null`. -/
theorem C3_usb_list_counterexample :
    vm_for_usb_device wC3.reMatch uC3 wC3.config.usbPassthrough =
      some ⟨some "vm1", none, false, false, false, 0⟩ ∧
    isBootDevice wC3 (.usb uC3) = true ∧
    find_vm_for_device wC3 (.usb uC3) true = none ∧
    get_usb_device_list wC3 false = [] := by
  refine ⟨by decide, by decide, by decide, by decide⟩

/-- No entry of the `usb_list` loop is a boot device. -/
theorem usbListGo_no_boot (w : World) (disc : Bool) (l : List USBInfo) :
    ∀ e ∈ usbListGo w disc l, isBootDevice w (.usb e.info) = false := by
  induction l with
  | nil => intro e he; cases he
  | cons u rest ih =>
    intro e he
    by_cases hhub : u.is_usb_hub
    · exact ih e (by simpa [usbListGo, hhub] using he)
    · by_cases hboot : isBootDevice w (.usb u)
      · exact ih e (by simpa [usbListGo, hhub, hboot] using he)
      · simp only [usbListGo, hhub, if_false, Bool.false_eq_true, hboot] at he
        rcases hr : vm_for_usb_device w.reMatch u w.config.usbPassthrough with
          _ | res
        · rw [hr] at he
          exact ih e he
        · rw [hr] at he
          simp only [] at he
          by_cases hdisc : w.dev_state.is_disconnected (.usb u)
          · rw [if_pos hdisc] at he
            rcases List.mem_cons.mp he with h1 | h2
            · subst h1; simpa using hboot
            · exact ih e h2
          · rw [if_neg hdisc] at he
            by_cases hd : disc
            · rw [if_pos hd] at he; exact ih e he
            · rw [if_neg hd] at he
              rcases List.mem_cons.mp he with h1 | h2
              · subst h1; simpa using hboot
              · exact ih e h2

/-- C3 amended: a boot device never passes `find_vm_for_device` (so no
attach flow runs for it), and the `usb_list` response omits boot devices
entirely rather than reporting them with `vm = null`. -/
theorem C3_boot_device_refusal (w : World) (u : USBInfo)
    (h : isBootDevice w (.usb u) = true) :
    find_vm_for_device w (.usb u) true = none ∧
    find_vm_for_device w (.usb u) false = none ∧
    ∀ disc : Bool, ∀ e ∈ get_usb_device_list w disc,
      isBootDevice w (.usb e.info) = false := by
  refine ⟨?_, ?_, ?_⟩
  · unfold find_vm_for_device
    rcases w.config.vm_for_device w.reMatch (.usb u) with _ | res
    · rfl
    · simp [h]
  · unfold find_vm_for_device
    rcases w.config.vm_for_device w.reMatch (.usb u) with _ | res
    · rfl
    · simp [h]
  · intro disc e he
    exact usbListGo_no_boot w disc w.usbHost e he

/-- C3 witness: the refusal evaluated at the concrete boot device. -/
theorem C3_boot_device_refusal_witness :
    find_vm_for_device wC3 (.usb uC3) true = none ∧
    ∀ e ∈ get_usb_device_list wC3 false, isBootDevice wC3 (.usb e.info) = false :=
  ⟨(C3_boot_device_refusal wC3 uC3 (by decide)).1,
   (C3_boot_device_refusal wC3 uC3 (by decide)).2.2 false⟩

/-- World in which `uC1` is present on the host but not attached. -/
def wC5 : World := { wC1 with usbHost := [uC1] }

/-- C5: detaching a device that is not recorded as attached fails with the
"not attached" error before any state or VMM mutation — the returned world
is exactly the input world — and the API surfaces the error as a failed
result with the error text. -/
theorem C5_detach_unattached_fails_cleanly (w : World) (d : DeviceInfo)
    (h : w.dev_state.get_vm_for_device d = none) :
    remove_device w d = (w, some (notAttachedMsg d)) ∧
    ∀ (node : String) (u : USBInfo), usb_device_by_node w node = some u →
      w.dev_state.get_vm_for_device (.usb u) = none →
      handle_usb_detach w node = (w, .failed (notAttachedMsg (.usb u))) := by
  have key : ∀ d2 : DeviceInfo, w.dev_state.get_vm_for_device d2 = none →
      remove_device w d2 = (w, some (notAttachedMsg d2)) := by
    intro d2 h2
    unfold remove_device
    rw [h2]
    rfl
  constructor
  · exact key d h
  · intro node u hu hnone
    have h2 : remove_existing_usb_device w node true =
        (w, some (notAttachedMsg (.usb u))) := by
      unfold remove_existing_usb_device
      rw [hu]
      show remove_existing_device w (.usb u) true = _
      unfold remove_existing_device
      rw [key (.usb u) hnone]
    unfold handle_usb_detach
    rw [h2]

/-- C5 witness: the clean failure evaluated at the concrete unattached
device. -/
theorem C5_detach_unattached_witness :
    remove_device wC5 (.usb uC1) = (wC5, some (notAttachedMsg (.usb uC1))) ∧
    handle_usb_detach wC5 "/dev/bus/usb/001/007" =
      (wC5, .failed (notAttachedMsg (.usb uC1))) :=
  ⟨(C5_detach_unattached_fails_cleanly wC5 (.usb uC1) (by decide)).1,
   (C5_detach_unattached_fails_cleanly wC5 (.usb uC1) (by decide)).2
     "/dev/bus/usb/001/007" uC1 (by decide) (by decide)⟩

/-! ## Helper lemmas for the attach-idempotence analysis (C4) -/

/-- Lookup after updating the same key. -/
theorem alGet_upd_self (k v : String) (l : List (String × String)) :
    alGet k (alUpd k v l) = some v := by
  induction l with
  | nil => simp [alUpd, alGet]
  | cons kv rest ih =>
    obtain ⟨a, b⟩ := kv
    by_cases ha : a = k
    · simp [alUpd, ha, alGet]
    · simp [alUpd, ha, alGet, ih]

/-- Updating the same key twice equals updating it once. -/
theorem alUpd_idem (k v : String) (l : List (String × String)) :
    alUpd k v (alUpd k v l) = alUpd k v l := by
  induction l with
  | nil => simp [alUpd]
  | cons kv rest ih =>
    obtain ⟨a, b⟩ := kv
    by_cases ha : a = k
    · simp [alUpd, ha]
    · simp [alUpd, ha, ih]

/-- Lookup after deleting the same key. -/
theorem alGet_del_self (k : String) (l : List (String × String)) :
    alGet k (alDel k l) = none := by
  induction l with
  | nil => simp [alDel, alGet]
  | cons kv rest ih =>
    obtain ⟨a, b⟩ := kv
    simp only [alDel, decide_not] at ih ⊢
    by_cases ha : a = k
    · simp [List.filter_cons, ha, ih]
    · simp [List.filter_cons, ha, alGet, ih]

/-- Lookup after updating the same key (list-valued maps). -/
theorem alGetL_updL_self {α : Type} (k : String) (v : α)
    (l : List (String × α)) : alGetL k (alUpdL k v l) = some v := by
  induction l with
  | nil => simp [alUpdL, alGetL]
  | cons kv rest ih =>
    obtain ⟨a, b⟩ := kv
    by_cases ha : a = k
    · simp [alUpdL, ha, alGetL]
    · simp [alUpdL, ha, alGetL, ih]

/-- `pushNotif` changes only the notification log. -/
theorem pushNotif_proj (w : World) (n : Notif) :
    (pushNotif w n).dev_state = w.dev_state ∧
    (pushNotif w n).guestUsb = w.guestUsb ∧
    (pushNotif w n).crosvmDevs = w.crosvmDevs ∧
    (pushNotif w n).cmds = w.cmds ∧
    (pushNotif w n).bootedSockets = w.bootedSockets ∧
    (pushNotif w n).apiServer = w.apiServer ∧
    (pushNotif w n).guestPci = w.guestPci := by
  unfold pushNotif
  split <;> exact ⟨rfl, rfl, rfl, rfl, rfl, rfl, rfl⟩

/-- The notifications after `pushNotif`. -/
theorem pushNotif_notifs (w : World) (n : Notif) :
    (pushNotif w n).notifs = w.notifs ++ (if w.apiServer then [n] else []) := by
  unfold pushNotif
  split <;> simp_all

/-- `qemu_add_usb_device` changes only the guest USB map and the command
log. -/
theorem qemu_add_usb_proj (w : World) (s : String) (u : USBInfo) :
    (qemu_add_usb_device w s u).dev_state = w.dev_state ∧
    (qemu_add_usb_device w s u).crosvmDevs = w.crosvmDevs ∧
    (qemu_add_usb_device w s u).bootedSockets = w.bootedSockets ∧
    (qemu_add_usb_device w s u).apiServer = w.apiServer ∧
    (qemu_add_usb_device w s u).notifs = w.notifs := by
  unfold qemu_add_usb_device
  split
  · dsimp only
    split <;> exact ⟨rfl, rfl, rfl, rfl, rfl⟩
  · exact ⟨rfl, rfl, rfl, rfl, rfl⟩

/-- Re-running `QEMULink.add_usb_device` against a world whose guest USB
map already reflects the first run is a no-op: the boot gate or the
duplicate-ID check returns early. -/
theorem qemu_add_usb_idem (w : World) (s : String) (u : USBInfo)
    (w2 : World) (hg : w2.guestUsb = (qemu_add_usb_device w s u).guestUsb)
    (hb : w2.bootedSockets = w.bootedSockets) :
    qemu_add_usb_device w2 s u = w2 := by
  by_cases hboot : w.bootedSockets.contains s = true
  · by_cases hmem :
        ((alGetL s w.guestUsb).getD []).contains (qemuIdUsb u) = true
    · have hg2 : w2.guestUsb = w.guestUsb := by
        rw [hg]
        unfold qemu_add_usb_device
        rw [if_pos hboot, if_pos hmem]
      unfold qemu_add_usb_device
      rw [hb, if_pos hboot, hg2, if_pos hmem]
    · have hg2 : w2.guestUsb =
          alUpdL s (qemuIdUsb u :: (alGetL s w.guestUsb).getD []) w.guestUsb := by
        rw [hg]
        unfold qemu_add_usb_device
        rw [if_pos hboot, if_neg hmem]
      have hmem2 : ((alGetL s w2.guestUsb).getD []).contains (qemuIdUsb u)
          = true := by
        rw [hg2, alGetL_updL_self]
        simp [List.contains_cons]
      unfold qemu_add_usb_device
      rw [hb, if_pos hboot, if_pos hmem2]
  · unfold qemu_add_usb_device
    rw [hb, if_neg hboot]

/-- `clear_disconnected` leaves the runtime maps and `selected_vms`
unchanged. -/
theorem clear_disc_proj (st : DeviceState) (d : DeviceInfo) :
    (st.clear_disconnected d).1.usb_device_vm_map = st.usb_device_vm_map ∧
    (st.clear_disconnected d).1.pci_device_vm_map = st.pci_device_vm_map ∧
    (st.clear_disconnected d).1.selected_vms = st.selected_vms := by
  unfold DeviceState.clear_disconnected DeviceState.save
  dsimp only
  split
  · split <;> exact ⟨rfl, rfl, rfl⟩
  · exact ⟨rfl, rfl, rfl⟩

/-- `clear_disconnected` of an absent id returns the state unchanged. -/
theorem clear_disc_no_mem (st : DeviceState) (d : DeviceInfo)
    (h : d.persistent_id ∉ st.disconnected_devices) :
    st.clear_disconnected d = (st, false) := by
  unfold DeviceState.clear_disconnected
  dsimp only
  rw [if_neg h]

/-- The disconnected set after a successful `clear_disconnected`. -/
theorem clear_disc_mem_set (st : DeviceState) (d : DeviceInfo)
    (h : d.persistent_id ∈ st.disconnected_devices) :
    (st.clear_disconnected d).1.disconnected_devices =
      st.disconnected_devices.filter (fun x => x ≠ d.persistent_id) := by
  unfold DeviceState.clear_disconnected DeviceState.save
  dsimp only
  rw [if_pos h]
  split <;> rfl

/-- Clearing the disconnected flag twice equals clearing it once. -/
theorem clear_disc_idem (st : DeviceState) (d : DeviceInfo) :
    ((st.clear_disconnected d).1.clear_disconnected d).1 =
      (st.clear_disconnected d).1 := by
  by_cases hm : d.persistent_id ∈ st.disconnected_devices
  · have h2 : d.persistent_id ∉
        (st.clear_disconnected d).1.disconnected_devices := by
      rw [clear_disc_mem_set st d hm]
      simp [List.mem_filter]
    rw [clear_disc_no_mem _ d h2]
  · rw [clear_disc_no_mem st d hm, clear_disc_no_mem st d hm]

/-- `set_vm_for_device` of a USB device with a device node. -/
theorem set_usb_some (st : DeviceState) (u : USBInfo) (v n : String)
    (hn : u.device_node = some n) :
    st.set_vm_for_device (.usb u) v =
      { st with usb_device_vm_map := alUpd n v st.usb_device_vm_map } := by
  unfold DeviceState.set_vm_for_device
  dsimp only
  rw [hn]

/-- `set_vm_for_device` of a USB device without a device node is a
no-op. -/
theorem set_usb_none (st : DeviceState) (u : USBInfo) (v : String)
    (hn : u.device_node = none) :
    st.set_vm_for_device (.usb u) v = st := by
  unfold DeviceState.set_vm_for_device
  dsimp only
  rw [hn]

/-- The state-update composed by `_attach_device_to_vm` (set, then clear
the disconnected flag) for a USB device. -/
theorem usb_state_get (st : DeviceState) (u : USBInfo) (v : String) :
    DeviceState.get_vm_for_device
        (((st.set_vm_for_device (.usb u) v).clear_disconnected (.usb u)).1)
        (.usb u) =
      (match u.device_node with
       | some _ => some v
       | none => none) := by
  cases hn : u.device_node with
  | none =>
    unfold DeviceState.get_vm_for_device
    dsimp only
    rw [hn]
  | some n =>
    unfold DeviceState.get_vm_for_device
    dsimp only
    rw [hn]
    rw [(clear_disc_proj (st.set_vm_for_device (.usb u) v) (.usb u)).1,
      set_usb_some st u v n hn]
    exact alGet_upd_self n v st.usb_device_vm_map

/-- Updating a record field with its own value is the identity. -/
theorem devstate_usb_eta (s : DeviceState) (y : List (String × String))
    (h : y = s.usb_device_vm_map) : { s with usb_device_vm_map := y } = s := by
  subst h
  rfl

/-- The `_attach_device_to_vm` state update is idempotent for USB
devices. -/
theorem usb_state_idem (st : DeviceState) (u : USBInfo) (v : String) :
    (DeviceState.clear_disconnected
        (DeviceState.set_vm_for_device
          ((DeviceState.clear_disconnected
              (DeviceState.set_vm_for_device st (.usb u) v) (.usb u)).1)
          (.usb u) v)
        (.usb u)).1 =
      (DeviceState.clear_disconnected
        (DeviceState.set_vm_for_device st (.usb u) v) (.usb u)).1 := by
  cases hn : u.device_node with
  | none =>
    rw [set_usb_none st u v hn, set_usb_none _ u v hn]
    exact clear_disc_idem st (.usb u)
  | some n =>
    rw [set_usb_some st u v n hn]
    rw [set_usb_some
      ((DeviceState.clear_disconnected
        { st with usb_device_vm_map := alUpd n v st.usb_device_vm_map }
        (.usb u)).1) u v n hn]
    rw [(clear_disc_proj
      { st with usb_device_vm_map := alUpd n v st.usb_device_vm_map }
      (.usb u)).1]
    have he : ({ (DeviceState.clear_disconnected
        { st with usb_device_vm_map := alUpd n v st.usb_device_vm_map }
        (.usb u)).1 with
        usb_device_vm_map :=
          alUpd n v (alUpd n v st.usb_device_vm_map) }) =
        (DeviceState.clear_disconnected
          { st with usb_device_vm_map := alUpd n v st.usb_device_vm_map }
          (.usb u)).1 := by
      apply devstate_usb_eta
      rw [alUpd_idem]
      rw [(clear_disc_proj
        { st with usb_device_vm_map := alUpd n v st.usb_device_vm_map }
        (.usb u)).1]
    rw [he]
    exact clear_disc_idem _ (.usb u)

/-- After `remove_vm_for_device` the device is no longer mapped. -/
theorem get_after_remove (st : DeviceState) (d : DeviceInfo) :
    DeviceState.get_vm_for_device (st.remove_vm_for_device d) d = none := by
  cases d with
  | usb u =>
    cases hn : u.device_node with
    | none =>
      unfold DeviceState.get_vm_for_device
      dsimp only
      rw [hn]
    | some n =>
      unfold DeviceState.get_vm_for_device DeviceState.remove_vm_for_device
      dsimp only
      rw [hn]
      exact alGet_del_self n st.usb_device_vm_map
  | pci p =>
    cases hn : p.address with
    | none =>
      unfold DeviceState.get_vm_for_device
      dsimp only
      rw [hn]
    | some a =>
      unfold DeviceState.get_vm_for_device DeviceState.remove_vm_for_device
      dsimp only
      rw [hn]
      exact alGet_del_self a st.pci_device_vm_map

/-- Updating `dev_state` with its own value is the identity. -/
theorem world_dev_eta (w : World) (x : DeviceState) (h : x = w.dev_state) :
    { w with dev_state := x } = w := by
  subst h
  rfl

/-- `remove_device` on a USB device either leaves the world untouched
(when it raises) or leaves the device unmapped in the runtime state. -/
theorem remove_usb_outcome (w : World) (u : USBInfo) :
    (remove_device w (.usb u)).1 = w ∨
    DeviceState.get_vm_for_device
      (remove_device w (.usb u)).1.dev_state (.usb u) = none := by
  unfold remove_device
  dsimp only
  by_cases hcur :
      strTruthy (DeviceState.get_vm_for_device w.dev_state (.usb u)) = true
  · rw [if_pos hcur]
    rcases hvm : w.config.get_vm
        ((DeviceState.get_vm_for_device w.dev_state (.usb u)).getD "") with
      _ | vm
    · left; rfl
    · dsimp only
      unfold remove_device_from_vm vmm_remove_device
      by_cases hsock : vm.socket = ""
      · rw [if_pos hsock]; left; rfl
      · rw [if_neg hsock]
        by_cases hq1 : vm.vmType = "qemu"
        · rw [if_pos hq1]
          dsimp only
          unfold qemu_remove_usb_device
          dsimp only
          by_cases hmem :
              (((alGetL vm.socket w.guestUsb).getD []).contains (qemuIdUsb u))
                = true
          · rw [if_pos hmem]
            right
            rw [(pushNotif_proj _ _).1]
            dsimp only
            exact get_after_remove _ _
          · rw [if_neg hmem]
            left; rfl
        · rw [if_neg hq1]
          by_cases hc1 : vm.vmType = "crosvm"
          · rw [if_pos hc1]
            dsimp only
            right
            rw [(pushNotif_proj _ _).1]
            dsimp only
            exact get_after_remove _ _
          · rw [if_neg hc1]
            left; rfl
  · rw [if_neg hcur]
    left; rfl

/-- Concrete mouse-like USB device on bus 3, device 4. -/
def uC4 : USBInfo :=
  { device_node := some "/dev/bus/usb/003/004", vid := some "046d",
    pid := some "c52b", busnum := some 3, devnum := some 4 }

/-- Concrete booted QEMU VM. -/
def vmC4 : VmConf := { name := "vm1", vmType := "qemu", socket := "/run/vm1.sock" }

/-- World with `vmC4` booted and nothing attached. -/
def wC4 : World :=
  { config := { vms := [vmC4] }
    reMatch := fun _ _ => false
    dev_state := {}
    iommuGroups := fun _ => []
    bootedSockets := ["/run/vm1.sock"]
    apiServer := true }

/-- C4 counterexample: attaching the same device to the same VM twice
issues a single `device_add` and reaches the same runtime state, but it
emits TWO `usb_attached` notifications, not exactly one as claimed. -/
theorem C4_double_notification_counterexample :
    (attach_device_to_vm
        (attach_device_to_vm wC4 (.usb uC4) vmC4).1 (.usb uC4) vmC4).1.cmds =
      [.deviceAddUsb "/run/vm1.sock" "usb34" (some 3) (some 4)] ∧
    (attach_device_to_vm
        (attach_device_to_vm wC4 (.usb uC4) vmC4).1 (.usb uC4) vmC4).1.dev_state =
      (attach_device_to_vm wC4 (.usb uC4) vmC4).1.dev_state ∧
    (attach_device_to_vm
        (attach_device_to_vm wC4 (.usb uC4) vmC4).1 (.usb uC4) vmC4).1.notifs =
      [.usbAttached (some "/dev/bus/usb/003/004") "vm1",
       .usbAttached (some "/dev/bus/usb/003/004") "vm1"] := by
  refine ⟨by rfl, by rfl, by rfl⟩

/-- The pre-attach removal step of `_attach_device_to_vm` reaches a fixed
point after one application: afterwards the device is either mapped to no
VM or the removal was a no-op. -/
theorem attach_pre_stable (w : World) (u : USBInfo) (vm : VmConf) (A : World)
    (hA : A = (if strTruthy (DeviceState.get_vm_for_device w.dev_state (.usb u)) &&
        !(DeviceState.get_vm_for_device w.dev_state (.usb u) == some vm.name)
      then (remove_device w (.usb u)).1 else w)) :
    (if strTruthy (DeviceState.get_vm_for_device A.dev_state (.usb u)) &&
        !(DeviceState.get_vm_for_device A.dev_state (.usb u) == some vm.name)
      then (remove_device A (.usb u)).1 else A) = A := by
  by_cases hcw : (strTruthy (DeviceState.get_vm_for_device w.dev_state (.usb u)) &&
      !(DeviceState.get_vm_for_device w.dev_state (.usb u) == some vm.name)) = true
  · rw [if_pos hcw] at hA
    subst hA
    rcases remove_usb_outcome w u with hL | hR
    · rw [hL, if_pos hcw, hL]
    · rw [hR]
      simp [strTruthy]
  · rw [if_neg hcw] at hA
    subst hA
    rw [if_neg hcw]

/-- Shape of one `_attach_device_to_vm` run for a USB device on a QEMU VM
with a configured socket. -/
theorem attach_usb_qemu_eq (x : World) (u : USBInfo) (vm : VmConf)
    (hq : vm.vmType = "qemu") (hs : ¬vm.socket = "") :
    attach_device_to_vm x (.usb u) vm =
      (pushNotif
        { qemu_add_usb_device
            (if strTruthy (DeviceState.get_vm_for_device x.dev_state (.usb u)) &&
                !(DeviceState.get_vm_for_device x.dev_state (.usb u) ==
                  some vm.name)
             then (remove_device x (.usb u)).1 else x) vm.socket u with
          dev_state :=
            (DeviceState.clear_disconnected
              (DeviceState.set_vm_for_device
                (qemu_add_usb_device
                  (if strTruthy (DeviceState.get_vm_for_device x.dev_state (.usb u)) &&
                      !(DeviceState.get_vm_for_device x.dev_state (.usb u) ==
                        some vm.name)
                   then (remove_device x (.usb u)).1 else x) vm.socket u).dev_state
                (.usb u) vm.name)
              (.usb u)).1 }
        (notifAttached (.usb u) vm.name), none) := by
  have hadd : ∀ y : World, vmm_add_device y vm (.usb u) =
      (qemu_add_usb_device y vm.socket u, none) := by
    intro y
    unfold vmm_add_device
    rw [if_neg hs, if_pos hq]
  unfold attach_device_to_vm
  dsimp only
  rw [hadd]

/-- C4 amended: running `attach(d, v)` twice in a row for a USB device on
a QEMU VM leaves the same runtime state, guest USB set and VMM command log
as running it once (the QEMU link's duplicate-ID check returns early, so no
second `device_add` is issued) and yields the same outcome — but each
successful call emits its own `usb_attached` notification, so two
notifications are emitted in total, not one. -/
theorem C4_attach_idempotent_two_notifications (w : World) (u : USBInfo)
    (vm : VmConf) (hq : vm.vmType = "qemu") :
    ∀ w1 r1, attach_device_to_vm w (.usb u) vm = (w1, r1) →
    ∀ w2 r2, attach_device_to_vm w1 (.usb u) vm = (w2, r2) →
      w2.dev_state = w1.dev_state ∧ w2.guestUsb = w1.guestUsb ∧
      w2.crosvmDevs = w1.crosvmDevs ∧ w2.cmds = w1.cmds ∧ r2 = r1 ∧
      w2.notifs = w1.notifs ++
        (if r1.isNone && w1.apiServer then [notifAttached (.usb u) vm.name]
         else []) := by
  intro w1 r1 h1 w2 r2 h2
  by_cases hs : vm.socket = ""
  · -- the VMM dispatch raises "No socket path defined" on both calls
    have hadd : ∀ y : World, vmm_add_device y vm (.usb u) =
        (y, some "No socket path defined") := by
      intro y
      unfold vmm_add_device
      rw [if_pos hs]
    unfold attach_device_to_vm at h1 h2
    dsimp only at h1 h2
    rw [hadd] at h1 h2
    dsimp only at h1 h2
    injection h1 with e1 e2
    subst e1
    subst e2
    injection h2 with f1 f2
    subst f1
    subst f2
    rw [attach_pre_stable w u vm _ rfl]
    refine ⟨rfl, rfl, rfl, rfl, rfl, ?_⟩
    simp
  · -- successful QEMU attach on both calls
    rw [attach_usb_qemu_eq w u vm hq hs] at h1
    set A := (if strTruthy (DeviceState.get_vm_for_device w.dev_state (.usb u)) &&
        !(DeviceState.get_vm_for_device w.dev_state (.usb u) == some vm.name)
      then (remove_device w (.usb u)).1 else w) with hA
    set Q := qemu_add_usb_device A vm.socket u with hQ
    set S := (DeviceState.clear_disconnected
      (DeviceState.set_vm_for_device Q.dev_state (.usb u) vm.name)
      (.usb u)).1 with hS
    injection h1 with e1 e2
    subst e2
    rw [attach_usb_qemu_eq w1 u vm hq hs] at h2
    have hw1dev : w1.dev_state = S := by
      rw [← e1, (pushNotif_proj _ _).1]
    have hget : DeviceState.get_vm_for_device w1.dev_state (.usb u) =
        (match u.device_node with
         | some _ => some vm.name
         | none => none) := by
      rw [hw1dev, hS, hQ]
      exact usb_state_get (qemu_add_usb_device A vm.socket u).dev_state u vm.name
    have hcond : (strTruthy (DeviceState.get_vm_for_device w1.dev_state (.usb u)) &&
        !(DeviceState.get_vm_for_device w1.dev_state (.usb u) ==
          some vm.name)) = false := by
      rw [hget]
      cases hn : u.device_node <;> simp [strTruthy]
    have hcondn : ¬((strTruthy (DeviceState.get_vm_for_device w1.dev_state (.usb u)) &&
        !(DeviceState.get_vm_for_device w1.dev_state (.usb u) ==
          some vm.name)) = true) := by
      rw [hcond]
      simp
    rw [if_neg hcondn] at h2
    have hidem : qemu_add_usb_device w1 vm.socket u = w1 := by
      apply qemu_add_usb_idem A vm.socket u
      · rw [← e1, (pushNotif_proj _ _).2.1, hQ]
      · rw [← e1, (pushNotif_proj _ _).2.2.2.2.1]
        show Q.bootedSockets = A.bootedSockets
        rw [hQ, (qemu_add_usb_proj A vm.socket u).2.2.1]
    rw [hidem] at h2
    have hsidem : (DeviceState.clear_disconnected
        (DeviceState.set_vm_for_device w1.dev_state (.usb u) vm.name)
        (.usb u)).1 = w1.dev_state := by
      rw [hw1dev, hS, hQ]
      exact usb_state_idem (qemu_add_usb_device A vm.socket u).dev_state u vm.name
    rw [hsidem] at h2
    rw [world_dev_eta w1 _ rfl] at h2
    injection h2 with f1 f2
    subst f1
    subst f2
    refine ⟨(pushNotif_proj _ _).1, (pushNotif_proj _ _).2.1,
      (pushNotif_proj _ _).2.2.1, (pushNotif_proj _ _).2.2.2.1, rfl, ?_⟩
    rw [pushNotif_notifs]
    simp

/-- C4 witness: the double-attach behaviour evaluated at the concrete
booted QEMU VM. -/
theorem C4_attach_idempotent_two_notifications_witness :
    (attach_device_to_vm (attach_device_to_vm wC4 (.usb uC4) vmC4).1
        (.usb uC4) vmC4).1.dev_state =
      (attach_device_to_vm wC4 (.usb uC4) vmC4).1.dev_state ∧
    (attach_device_to_vm (attach_device_to_vm wC4 (.usb uC4) vmC4).1
        (.usb uC4) vmC4).1.guestUsb =
      (attach_device_to_vm wC4 (.usb uC4) vmC4).1.guestUsb ∧
    (attach_device_to_vm (attach_device_to_vm wC4 (.usb uC4) vmC4).1
        (.usb uC4) vmC4).1.crosvmDevs =
      (attach_device_to_vm wC4 (.usb uC4) vmC4).1.crosvmDevs ∧
    (attach_device_to_vm (attach_device_to_vm wC4 (.usb uC4) vmC4).1
        (.usb uC4) vmC4).1.cmds =
      (attach_device_to_vm wC4 (.usb uC4) vmC4).1.cmds ∧
    (attach_device_to_vm (attach_device_to_vm wC4 (.usb uC4) vmC4).1
        (.usb uC4) vmC4).2 =
      (attach_device_to_vm wC4 (.usb uC4) vmC4).2 ∧
    (attach_device_to_vm (attach_device_to_vm wC4 (.usb uC4) vmC4).1
        (.usb uC4) vmC4).1.notifs =
      (attach_device_to_vm wC4 (.usb uC4) vmC4).1.notifs ++
        (if (attach_device_to_vm wC4 (.usb uC4) vmC4).2.isNone &&
            (attach_device_to_vm wC4 (.usb uC4) vmC4).1.apiServer then
          [notifAttached (.usb uC4) vmC4.name] else []) :=
  C4_attach_idempotent_two_notifications wC4 uC4 vmC4 (by rfl) _ _ rfl _ _ rfl

/-! ## VFIO rebinding (src/vhotplug/pci.py) -/

/-- Oracle for the sysfs interactions of `_bind_vfio_pci`: the current
driver link, and whether each write succeeds (`unbindOk` is indexed by the
1-based attempt number). -/
structure SysfsPci where
  driver : String → Option String
  unbindOk : String → Nat → Bool
  overrideOk : String → Bool
  probeOk : String → Bool
  iommuGroups : String → List String

/-- Observable effects of one `_bind_vfio_pci` run. -/
structure VfioLog where
  unbindWrites : Nat := 0
  unbindFailedLogged : Bool := false
  overrideWritten : Bool := false
  probeWritten : Bool := false
  deriving DecidableEq, Repr

/-- The unbind write loop `for _ in range(1, 5)` of `_bind_vfio_pci`: one
write per listed attempt, stopping at the first success; returns the
number of writes performed and whether one succeeded. -/
def unbindAttempts (ok : Nat → Bool) : List Nat → Nat × Bool
  | [] => (0, false)
  | a :: rest =>
    if ok a then (1, true)
    else
      let r := unbindAttempts ok rest
      (r.1 + 1, r.2)

/-- `_bind_vfio_pci`: skip when the driver is already `vfio-pci`; otherwise
attempt the unbind writes (the loop body catches each `OSError`, `range(1, 5)`
iterates attempts 1 to 4, and exhaustion only logs "after 5 attempts"),
then write `driver_override` and `drivers_probe`, whose `OSError` is NOT
caught here and propagates. -/
def bind_vfio_pci (fs : SysfsPci) (addr : String) : Except String VfioLog :=
  let driver := fs.driver addr
  if driver == some "vfio-pci" then .ok {}
  else
    let r := if strTruthy driver then unbindAttempts (fs.unbindOk addr) [1, 2, 3, 4]
             else (0, true)
    let failedLogged := strTruthy driver && !r.2
    if fs.overrideOk addr then
      if fs.probeOk addr then
        .ok { unbindWrites := r.1, unbindFailedLogged := failedLogged,
              overrideWritten := true, probeWritten := true }
      else .error "OSError while writing drivers_probe"
    else .error "OSError while writing driver_override"

/-- The loop of `setup_vfio` over the IOMMU group: an `OSError` raised by
`_bind_vfio_pci` aborts the loop and is reported to the surrounding
handler. -/
def setupVfioLoop (fs : SysfsPci) :
    List String → List (String × VfioLog) × Option String
  | [] => ([], none)
  | a :: rest =>
    match bind_vfio_pci fs a with
    | .ok log =>
      let r := setupVfioLoop fs rest
      ((a, log) :: r.1, r.2)
    | .error e => ([], some e)

/-- `setup_vfio`: iterates the IOMMU group; its `except OSError` catches
the error and only logs it, so the function always returns normally.  The
second component records whether an `OSError` was caught and logged. -/
def setup_vfio (fs : SysfsPci) (p : PCIInfo) :
    List (String × VfioLog) × Bool :=
  match setupVfioLoop fs (fs.iommuGroups (optStr p.address)) with
  | (l, some _) => (l, true)
  | (l, none) => (l, false)

/-- Sysfs oracle where the unbind write would succeed only on a fifth
attempt, which the code never makes. -/
def fsC8 : SysfsPci :=
  { driver := fun _ => some "e1000e"
    unbindOk := fun _ n => n == 5
    overrideOk := fun _ => true
    probeOk := fun _ => true
    iommuGroups := fun _ => ["0000:00:1f.6"] }

/-- C8 counterexample: the unbind write is attempted only 4 times
(`range(1, 5)`), so an unbind that would succeed on the claimed fifth try
never does; and the persistent unbind failure does not propagate out of
`setup_vfio` — the run completes normally with the `driver_override` and
`drivers_probe` writes still performed and no error caught. -/
theorem C8_retry_counterexample :
    unbindAttempts (fsC8.unbindOk "0000:00:1f.6") [1, 2, 3, 4] = (4, false) ∧
    fsC8.unbindOk "0000:00:1f.6" 5 = true ∧
    bind_vfio_pci fsC8 "0000:00:1f.6" =
      .ok { unbindWrites := 4, unbindFailedLogged := true,
            overrideWritten := true, probeWritten := true } ∧
    setup_vfio fsC8 { address := some "0000:00:1f.6" } =
      ([("0000:00:1f.6",
         { unbindWrites := 4, unbindFailedLogged := true,
           overrideWritten := true, probeWritten := true })], false) := by
  refine ⟨by decide, by decide, by rfl, by rfl⟩

/-- The unbind loop writes at most as many times as it has attempts. -/
theorem unbindAttempts_le (ok : Nat → Bool) (l : List Nat) :
    (unbindAttempts ok l).1 ≤ l.length := by
  induction l with
  | nil => simp [unbindAttempts]
  | cons a rest ih =>
    unfold unbindAttempts
    by_cases ha : ok a = true
    · rw [if_pos ha]
      simp
    · rw [if_neg ha]
      simpa using Nat.succ_le_succ ih

/-- C8 amended: the unbind write is retried up to 4 times (with a 1 s
delay between attempts); a failure persisting after the retries is only
logged ("after 5 attempts") and binding proceeds to `driver_override` and
`drivers_probe` regardless; an `OSError` from those writes is caught by
`setup_vfio` and logged, never propagated to its caller. -/
theorem C8_unbind_retries_and_no_propagation (fs : SysfsPci) (addr : String) :
    (∀ log : VfioLog, bind_vfio_pci fs addr = .ok log →
      log.unbindWrites ≤ 4) ∧
    (fs.driver addr ≠ some "vfio-pci" → strTruthy (fs.driver addr) = true →
      (∀ n, n ≤ 4 → fs.unbindOk addr n = false) → fs.overrideOk addr = true →
      fs.probeOk addr = true →
      bind_vfio_pci fs addr =
        .ok { unbindWrites := 4, unbindFailedLogged := true,
              overrideWritten := true, probeWritten := true }) ∧
    (∀ (p : PCIInfo) (l : List (String × VfioLog)) (err : String),
      setupVfioLoop fs (fs.iommuGroups (optStr p.address)) = (l, some err) →
      setup_vfio fs p = (l, true)) := by
  refine ⟨?_, ?_, ?_⟩
  · intro log hlog
    unfold bind_vfio_pci at hlog
    dsimp only at hlog
    by_cases hdrv : (fs.driver addr == some "vfio-pci") = true
    · rw [if_pos hdrv] at hlog
      injection hlog with h
      rw [← h]
      exact Nat.zero_le 4
    · rw [if_neg hdrv] at hlog
      by_cases hov : fs.overrideOk addr = true
      · rw [if_pos hov] at hlog
        by_cases hpr : fs.probeOk addr = true
        · rw [if_pos hpr] at hlog
          injection hlog with h
          rw [← h]
          by_cases htr : strTruthy (fs.driver addr) = true
          · rw [if_pos htr]
            exact unbindAttempts_le (fs.unbindOk addr) [1, 2, 3, 4]
          · rw [if_neg htr]
            exact Nat.zero_le 4
        · rw [if_neg hpr] at hlog
          cases hlog
      · rw [if_neg hov] at hlog
        cases hlog
  · intro hne htr hfail hov hpr
    have hbeq : (fs.driver addr == some "vfio-pci") = false := by
      simpa using hne
    unfold bind_vfio_pci
    dsimp only
    rw [hbeq]
    simp only [Bool.false_eq_true, if_false]
    rw [if_pos htr, if_pos hov, if_pos hpr]
    have h1 := hfail 1 (by omega)
    have h2 := hfail 2 (by omega)
    have h3 := hfail 3 (by omega)
    have h4 := hfail 4 (by omega)
    simp [unbindAttempts, h1, h2, h3, h4, htr]
  · intro p l err hloop
    unfold setup_vfio
    rw [hloop]

/-- C8 witness: the amended behaviour evaluated at the concrete oracle. -/
theorem C8_unbind_retries_witness :
    bind_vfio_pci fsC8 "0000:00:1f.6" =
      .ok { unbindWrites := 4, unbindFailedLogged := true,
            overrideWritten := true, probeWritten := true } :=
  (C8_unbind_retries_and_no_propagation fsC8 "0000:00:1f.6").2.1
    (by decide) (by decide) (fun n hn => by simp [fsC8]; omega)
    (by decide) (by decide)

/-! ## Process entry point (src/vhotplug/vhotplug.py) -/

/-- How the (otherwise infinite) monitor loop of a successfully
bootstrapped run ends. -/
inductive RunEnd where
  | cancelled
  | keyboardInterrupt
  | uncaughtException
  deriving DecidableEq, Repr

/-- Inputs determining the control flow of `main`/`async_main`: whether
`os.path.exists(args.config)` holds, whether the bootstrap
(`Config(...)`, state-store and API-server setup) raises, and how the
monitor loop ends. -/
structure MainEnv where
  configExists : Bool
  bootstrapRaises : Bool
  runEnd : RunEnd
  deriving DecidableEq, Repr

/-- Exit code of the `vhotplug` process, from `main` (vhotplug.py:185-193)
and `async_main` (vhotplug.py:120-182).  A missing configuration file is
logged and `async_main` simply returns (line 144-146), so `main` returns
normally and CPython exits with code 0; an exception raised during
bootstrap propagates out of `main` (which catches only `CancelledError`
and `KeyboardInterrupt`), and CPython exits with code 1 on an uncaught
exception; `CancelledError` and `KeyboardInterrupt` are caught and logged,
giving a normal return and exit code 0. -/
def main_exit_code (env : MainEnv) : Nat :=
  if !env.configExists then 0
  else if env.bootstrapRaises then 1
  else
    match env.runEnd with
    | .cancelled => 0
    | .keyboardInterrupt => 0
    | .uncaughtException => 1

/-- C9 counterexample: invoking the daemon with a `--config` path that
does not exist terminates the process with exit code 0, not a non-zero
code as claimed — `async_main` logs the error and returns normally. -/
theorem C9_missing_config_counterexample :
    main_exit_code
      { configExists := false, bootstrapRaises := false,
        runEnd := .cancelled } = 0 ∧
    (0 : Nat) ≠ 1 := by
  refine ⟨by decide, by decide⟩

/-- C9 amended: the process exits 0 on clean shutdown (cancellation or
Ctrl+C) AND when the configuration file is missing (the error is only
logged); it exits 1 only when an exception — e.g. a bootstrap failure —
propagates uncaught. -/
theorem C9_exit_codes (env : MainEnv) :
    (env.configExists = false → main_exit_code env = 0) ∧
    (env.configExists = true → env.bootstrapRaises = true →
      main_exit_code env = 1) ∧
    (env.configExists = true → env.bootstrapRaises = false →
      (env.runEnd = .cancelled ∨ env.runEnd = .keyboardInterrupt) →
      main_exit_code env = 0) ∧
    (env.configExists = true → env.bootstrapRaises = false →
      env.runEnd = .uncaughtException → main_exit_code env = 1) := by
  refine ⟨?_, ?_, ?_, ?_⟩
  · intro h
    unfold main_exit_code
    rw [h]
    rfl
  · intro h1 h2
    unfold main_exit_code
    rw [h1, h2]
    rfl
  · intro h1 h2 h3
    unfold main_exit_code
    rw [h1, h2]
    rcases h3 with h | h <;> rw [h] <;> rfl
  · intro h1 h2 h3
    unfold main_exit_code
    rw [h1, h2, h3]
    rfl

/-- C9 witness: the amended exit codes evaluated on concrete
environments. -/
theorem C9_exit_codes_witness :
    main_exit_code
      { configExists := false, bootstrapRaises := false,
        runEnd := .keyboardInterrupt } = 0 ∧
    main_exit_code
      { configExists := true, bootstrapRaises := true,
        runEnd := .cancelled } = 1 :=
  ⟨(C9_exit_codes
      { configExists := false, bootstrapRaises := false,
        runEnd := .keyboardInterrupt }).1 (by decide),
   (C9_exit_codes
      { configExists := true, bootstrapRaises := true,
        runEnd := .cancelled }).2.1 (by decide) (by decide)⟩

end Vhotplug
